import Mathlib

/-!
Verification development for the OncoPulse ingestion-and-ranking pipeline.

This file gives a shallow embedding of the pipeline core:
`oncopulse/ingest/dedup.py`, `oncopulse/scoring.py`, `oncopulse/db.py`
(item store and run ledger, modelled as in-memory lists standing for the
SQLite tables) and `oncopulse/services/run_pipeline.py`.

Modelling conventions:
- Python strings are `List Char` (`Str`); `str.lower` is modelled for the
  ASCII range, which covers every string the pipeline manipulates.
- Timestamps (`datetime.now`, `time.monotonic`) are integer seconds; all
  timestamps the ledger writes come from `datetime.isoformat`, so the
  "unparseable timestamp" branches of the source cannot fire and real
  elapsed-time arithmetic on them is exact rational arithmetic, of which
  the integer-second grid is a faithful restriction.
- Python floats are rationals; `math.log1p` (transcendental, floating
  point) is an explicit function parameter.
- External collaborators with I/O (source connectors, pack files read
  from disk, NLP query expansion, full-text/citation enrichment, the
  summariser) are supplied through an environment record `ConnEnv`; a
  connector call that raises is an `Except.error`.
-/

abbrev Str := List Char

/-! ### ASCII / Python string primitives -/

def pyLowerChar (c : Char) : Char :=
  if 65 ≤ c.toNat ∧ c.toNat ≤ 90 then Char.ofNat (c.toNat + 32) else c

/-- Model of Python `str.lower()` (faithful on the ASCII range). -/
def pyLower (s : Str) : Str := s.map pyLowerChar

/-- The whitespace characters recognised by Python `str.strip()` and `\s`
(ASCII range): space, tab, newline, carriage return, vertical tab, form feed. -/
def isPyWs (c : Char) : Bool :=
  c.toNat == 32 || c.toNat == 9 || c.toNat == 10 || c.toNat == 13 ||
  c.toNat == 11 || c.toNat == 12

/-- Model of Python `str.strip()`. -/
def pyStrip (s : Str) : Str :=
  ((s.dropWhile isPyWs).reverse.dropWhile isPyWs).reverse

def isAsciiDigit (c : Char) : Bool := decide ('0' ≤ c) && decide (c ≤ '9')

/-- A lowercase-alphanumeric character, the class `[a-z0-9]`. -/
def isLowerAlnum (c : Char) : Bool :=
  (decide ('a' ≤ c) && decide (c ≤ 'z')) || isAsciiDigit c

/-- A regex word character `\w` (ASCII range): `[A-Za-z0-9_]`. -/
def isWordChar (c : Char) : Bool :=
  (decide ('a' ≤ c) && decide (c ≤ 'z')) || (decide ('A' ≤ c) && decide (c ≤ 'Z')) ||
  isAsciiDigit c || c == '_'

def isPrefixB : Str → Str → Bool
  | [], _ => true
  | _ :: _, [] => false
  | a :: as, b :: bs => a == b && isPrefixB as bs

/-- Model of Python `needle in hay` substring containment. -/
def pyIn (needle : Str) : Str → Bool
  | [] => isPrefixB needle []
  | c :: t => isPrefixB needle (c :: t) || pyIn needle t

/-- Python falsy-`or` for optional strings: `a or b` where `None` and `""`
are falsy. -/
def pyOrOpt (a b : Option Str) : Option Str :=
  match a with
  | some s => if s = [] then b else some s
  | none => b

/-- Python `d.get(key) or ""` / `d.get(key, "")` for an optional field. -/
def orBlank (v : Option Str) : Str := v.getD []

def intStr (i : Int) : Str := (toString i).data

def natStr (n : Nat) : Str := (toString n).data

/-! ### SHA-1 over natural numbers mod 2^32 (`hashlib.sha1`) -/

def utf8Char (c : Char) : List Nat :=
  let n := c.toNat
  if n < 0x80 then [n]
  else if n < 0x800 then [0xC0 + n / 0x40, 0x80 + n % 0x40]
  else if n < 0x10000 then
    [0xE0 + n / 0x1000, 0x80 + (n / 0x40) % 0x40, 0x80 + n % 0x40]
  else
    [0xF0 + n / 0x40000, 0x80 + (n / 0x1000) % 0x40,
     0x80 + (n / 0x40) % 0x40, 0x80 + n % 0x40]

/-- Model of Python `s.encode("utf-8")`. -/
def utf8Encode (s : Str) : List Nat := (s.map utf8Char).flatten

def M32 : Nat := 4294967296

def rotl (n x : Nat) : Nat := (x * 2 ^ n) % M32 + x / 2 ^ (32 - n)

def bnot32 (x : Nat) : Nat := (M32 - 1) - x

def sha1Pad (msg : List Nat) : List Nat :=
  let len := msg.length
  let z := (119 - len % 64) % 64
  let ml := (8 * len) % 2 ^ 64
  msg ++ [0x80] ++ List.replicate z 0 ++
    ((List.range 8).reverse.map fun i => (ml / 2 ^ (8 * i)) % 256)

def chunksOf64 : List Nat → List (List Nat)
  | [] => []
  | a :: t => ((a :: t).take 64) :: chunksOf64 ((a :: t).drop 64)
termination_by l => l.length
decreasing_by
  simp only [List.drop_succ_cons, List.length_drop, List.length_cons]
  omega

def wordsOf (chunk : List Nat) : List Nat :=
  (List.range 16).map fun i =>
    (chunk.getD (4 * i) 0) * 16777216 + (chunk.getD (4 * i + 1) 0) * 65536 +
    (chunk.getD (4 * i + 2) 0) * 256 + chunk.getD (4 * i + 3) 0

def extendW (w : List Nat) : Nat → List Nat
  | 0 => w
  | n + 1 =>
    let i := w.length
    let x := ((w.getD (i - 3) 0).xor (w.getD (i - 8) 0)).xor
      ((w.getD (i - 14) 0).xor (w.getD (i - 16) 0))
    extendW (w ++ [rotl 1 x]) n

def sha1Round (st : Nat × Nat × Nat × Nat × Nat × Nat) (wi : Nat) :
    Nat × Nat × Nat × Nat × Nat × Nat :=
  let (i, a, b, c, d, e) := st
  let f :=
    if i < 20 then (b.land c).lor ((bnot32 b).land d)
    else if i < 40 then (b.xor c).xor d
    else if i < 60 then ((b.land c).lor (b.land d)).lor (c.land d)
    else (b.xor c).xor d
  let k :=
    if i < 20 then 0x5A827999
    else if i < 40 then 0x6ED9EBA1
    else if i < 60 then 0x8F1BBCDC
    else 0xCA62C1D6
  let temp := (rotl 5 a + f + e + k + wi) % M32
  (i + 1, temp, a, rotl 30 b, c, d)

def sha1Chunk (h : Nat × Nat × Nat × Nat × Nat) (chunk : List Nat) :
    Nat × Nat × Nat × Nat × Nat :=
  let (h0, h1, h2, h3, h4) := h
  let w := extendW (wordsOf chunk) 64
  let (_, a, b, c, d, e) := w.foldl sha1Round (0, h0, h1, h2, h3, h4)
  ((h0 + a) % M32, (h1 + b) % M32, (h2 + c) % M32, (h3 + d) % M32, (h4 + e) % M32)

def hexDigit (d : Nat) : Char :=
  if d < 10 then Char.ofNat ('0'.toNat + d) else Char.ofNat ('a'.toNat + d - 10)

def hexWord (n : Nat) : Str :=
  (List.range 8).reverse.map fun i => hexDigit ((n / 16 ^ i) % 16)

/-- Model of `hashlib.sha1(bytes).hexdigest()`. -/
def sha1Hex (msg : List Nat) : Str :=
  let (h0, h1, h2, h3, h4) :=
    (chunksOf64 (sha1Pad msg)).foldl sha1Chunk
      (0x67452301, 0xEFCDAB89, 0x98BADCFE, 0x10325476, 0xC3D2E1F0)
  hexWord h0 ++ hexWord h1 ++ hexWord h2 ++ hexWord h3 ++ hexWord h4

/-! ### Raw records / item dictionaries

A Python dict flowing through the pipeline: every field a connector, the
orchestrator or the scorer may read or write. Absent keys are `none`. -/

structure ItemDict where
  source : Option Str := none
  title : Option Str := none
  url : Option Str := none
  published_at : Option Str := none
  updated_at : Option Str := none
  pmid : Option Str := none
  doi : Option Str := none
  nct_id : Option Str := none
  venue : Option Str := none
  authors : Option Str := none
  abstract_or_text : Option Str := none
  conditions : Option Str := none
  interventions : Option Str := none
  study_type : Option Str := none
  phase : Option Str := none
  primary_endpoints : Option Str := none
  specialty : Option Str := none
  subcategory : Option Str := none
  mode_name : Option Str := none
  fingerprint : Option Str := none
  citations : Option Int := none
  citations_source : Option Str := none
  score : Option Int := none
  score_explain : List Str := []
  summary_text : Option Str := none
deriving DecidableEq

/-! ### `oncopulse/ingest/dedup.py` -/

/-- Helper for `re.sub(r"\s+", " ", t)` after whitespace characters have
been mapped to plain spaces: a maximal space run becomes one space. -/
def squeezeSpaces : Str → Str
  | [] => []
  | c :: rest =>
    match rest with
    | [] => [c]
    | d :: _ =>
      if c == ' ' && d == ' ' then squeezeSpaces rest else c :: squeezeSpaces rest

/-- `normalize_title`: lowercase, strip, map `[^a-z0-9\s]` to a space,
collapse whitespace runs to a single space. -/
def normalize_title (title : Str) : Str :=
  let t := pyStrip (pyLower title)
  let t := t.map fun c => if isLowerAlnum c || isPyWs c then c else ' '
  squeezeSpaces (t.map fun c => if isPyWs c then ' ' else c)

def yearAt : Str → Option Str
  | a :: b :: c :: d :: _ =>
    if ((a == '1' && b == '9') || (a == '2' && b == '0')) && isAsciiDigit c && isAsciiDigit d
    then some [a, b, c, d] else none
  | _ => none

def findYear : Str → Option Str
  | [] => none
  | c :: t =>
    match yearAt (c :: t) with
    | some y => some y
    | none => findYear t

/-- `year_bucket`: first `(19|20)\d{2}` match of the date text, else
`"unknown"` (also for a missing or empty date). -/
def year_bucket (date_text : Option Str) : Str :=
  match date_text with
  | none => "unknown".data
  | some s =>
    if s = [] then "unknown".data
    else
      match findYear s with
      | some y => y
      | none => "unknown".data

/-- `fingerprint_item`: first present identifier among `doi`, `pmid`,
`nct_id` (stripped, lowercased) wins as `"<kind>:<value>"`; otherwise a
`"titleyear:"`-tagged 16-hex-digit SHA-1 of normalized title and year bucket. -/
def fingerprint_item (item : ItemDict) : Str :=
  let dv := pyLower (pyStrip (orBlank item.doi))
  if dv ≠ [] then "doi:".data ++ dv
  else
    let pv := pyLower (pyStrip (orBlank item.pmid))
    if pv ≠ [] then "pmid:".data ++ pv
    else
      let nv := pyLower (pyStrip (orBlank item.nct_id))
      if nv ≠ [] then "nct_id:".data ++ nv
      else
        let tnorm := normalize_title (orBlank item.title)
        let y := year_bucket (pyOrOpt item.published_at item.updated_at)
        let raw := "title:".data ++ tnorm ++ "|year:".data ++ y
        "titleyear:".data ++ (sha1Hex (utf8Encode raw)).take 16

/-- The fingerprint `deduplicate` assigns: a present, non-empty
`"fingerprint"` key wins, otherwise `fingerprint_item` (Python
`item.get("fingerprint") or fingerprint_item(item)`). -/
def effFingerprint (item : ItemDict) : Str :=
  match item.fingerprint with
  | some s => if s = [] then fingerprint_item item else s
  | none => fingerprint_item item

def dedupAux (seen : List Str) : List ItemDict → List ItemDict
  | [] => []
  | it :: rest =>
    let fp := effFingerprint it
    if fp ∈ seen then dedupAux seen rest
    else { it with fingerprint := some fp } :: dedupAux (fp :: seen) rest

/-- `deduplicate`: one pass with a seen-set, first occurrence of each
fingerprint wins, each kept item gets its fingerprint written back. -/
def deduplicate (items : List ItemDict) : List ItemDict := dedupAux [] items

/-! ### `oncopulse/scoring.py` -/

/-- `DEFAULT_WEIGHTS`: the flat weight table; Python floats are rationals. -/
structure Weights where
  phase_iii : ℚ := 6
  randomized : ℚ := 5
  meta_analysis : ℚ := 4
  phase_ii : ℚ := 3
  overall_survival : ℚ := 2
  progression_free_survival : ℚ := 2
  sample_size : ℚ := 1
  major_journal : ℚ := 1
  citations_multiplier : ℚ := 1
  preclinical_penalty : ℚ := -4
  case_report_penalty : ℚ := -3
  global_penalty : ℚ := -2
  include_term : ℚ := 1
  exclude_term : ℚ := -1
  query_exact_phrase : ℚ := 8
  query_concept : ℚ := 3
  query_keyword : ℚ := 1
  query_coverage : ℚ := 2
deriving DecidableEq

/-- One step of the `_resolved_weights` merge: a known key replaces the
default, an unknown key is ignored; `none` stands for a value that
`float(v)` rejects, which is skipped. -/
def applyOverride (w : Weights) (kv : Str × Option ℚ) : Weights :=
  match kv.2 with
  | none => w
  | some q =>
    if kv.1 = "phase_iii".data then { w with phase_iii := q }
    else if kv.1 = "randomized".data then { w with randomized := q }
    else if kv.1 = "meta_analysis".data then { w with meta_analysis := q }
    else if kv.1 = "phase_ii".data then { w with phase_ii := q }
    else if kv.1 = "overall_survival".data then { w with overall_survival := q }
    else if kv.1 = "progression_free_survival".data then
      { w with progression_free_survival := q }
    else if kv.1 = "sample_size".data then { w with sample_size := q }
    else if kv.1 = "major_journal".data then { w with major_journal := q }
    else if kv.1 = "citations_multiplier".data then { w with citations_multiplier := q }
    else if kv.1 = "preclinical_penalty".data then { w with preclinical_penalty := q }
    else if kv.1 = "case_report_penalty".data then { w with case_report_penalty := q }
    else if kv.1 = "global_penalty".data then { w with global_penalty := q }
    else if kv.1 = "include_term".data then { w with include_term := q }
    else if kv.1 = "exclude_term".data then { w with exclude_term := q }
    else if kv.1 = "query_exact_phrase".data then { w with query_exact_phrase := q }
    else if kv.1 = "query_concept".data then { w with query_concept := q }
    else if kv.1 = "query_keyword".data then { w with query_keyword := q }
    else if kv.1 = "query_coverage".data then { w with query_coverage := q }
    else w

/-- `_resolved_weights`: defaults merged with the caller's overrides. -/
def resolvedWeights (overrides : Option (List (Str × Option ℚ))) : Weights :=
  match overrides with
  | none => {}
  | some l => l.foldl applyOverride {}

/-- Python `int(q)`: truncation toward zero. -/
def ratFloorZ (q : ℚ) : Int := q.num.fdiv q.den

def pyInt (q : ℚ) : Int := if q < 0 then -ratFloorZ (-q) else ratFloorZ q

/-- `_has_any`: case-insensitive substring containment of any term. -/
def hasAny (text : Str) (terms : List Str) : Bool :=
  terms.any fun term => pyIn (pyLower term) (pyLower text)

def digitsVal (ds : Str) : Nat :=
  ds.foldl (fun a c => a * 10 + (c.toNat - '0'.toNat)) 0

def tryKey (key s : Str) : Option Str :=
  if isPrefixB key s then some (s.drop key.length) else none

/-- After one of the sample-size keywords: match `\s*=\s*(\d{2,5})\b`,
returning the captured value and the rest of the string. -/
def afterKeyMatch (s : Str) : Option (Nat × Str) :=
  match s.dropWhile isPyWs with
  | [] => none
  | c :: rest =>
    if c == '=' then
      let s2 := rest.dropWhile isPyWs
      let ds := s2.takeWhile isAsciiDigit
      let after := s2.dropWhile isAsciiDigit
      if decide (2 ≤ ds.length) && decide (ds.length ≤ 5) &&
          (match after with | [] => true | d :: _ => !isWordChar d) then
        some (digitsVal ds, after)
      else none
    else none

/-- One attempt of `\b(?:n\s*=\s*|enrolled\s*=\s*|patients?\s*=\s*)(\d{2,5})\b`
at the current position (the leading boundary is checked by the caller);
the alternatives are tried in the regex order. -/
def matchSampleAt (s : Str) : Option (Nat × Str) :=
  (tryKey ("n".data) s >>= afterKeyMatch) <|>
  (tryKey ("enrolled".data) s >>= afterKeyMatch) <|>
  (tryKey ("patients".data) s >>= afterKeyMatch) <|>
  (tryKey ("patient".data) s >>= afterKeyMatch)

/-- `re.findall` scan for the sample-size pattern: left to right,
non-overlapping, tracking whether the previous character was a word
character (for `\b`). Each step consumes at least one character, so the
initial string length is enough fuel. -/
def sampleScanAux : Nat → Str → Bool → List Nat
  | 0, _, _ => []
  | _ + 1, [], _ => []
  | fuel + 1, c :: t, prevWord =>
    if prevWord then sampleScanAux fuel t (isWordChar c)
    else
      match matchSampleAt (c :: t) with
      | some (v, rest) => v :: sampleScanAux fuel rest true
      | none => sampleScanAux fuel t (isWordChar c)

/-- `_sample_size_boost`: fires when some extracted enrollment count is ≥ 200. -/
def sample_size_boost (text : Str) : Bool :=
  let t := pyLower text
  (sampleScanAux t.length t false).any fun v => 200 ≤ v

/-- Word-boundary search `\b t \b` for an alphanumeric token `t`. -/
def wordSearchAux (t : Str) : Str → Bool → Bool
  | [], _ => false
  | c :: rest, prevWord =>
    (!prevWord && isPrefixB t (c :: rest) &&
      (match (c :: rest).drop t.length with
       | [] => true
       | d :: _ => !isWordChar d)) ||
    wordSearchAux t rest (isWordChar c)

def wordSearch (blob t : Str) : Bool := wordSearchAux t blob false

/-- `scoring._contains_term`: an all-`[a-z0-9]` token is matched with word
boundaries, anything else by plain substring containment. -/
def containsTermScore (blob term : Str) : Bool :=
  let t := pyLower (pyStrip term)
  if t = [] then false
  else if t.all isLowerAlnum then wordSearch blob t
  else pyIn t blob

/-- The `search_query_context` dict built by the free-text entry point:
`raw_query` is the value of `q.get("raw_query") or q.get("query_text") or ""`. -/
structure QueryContext where
  raw_query : Str := []
  keywords : List Str := []
  concepts : List (List Str) := []
deriving DecidableEq

/-- `_query_relevance_boost`. The coverage test
`len(set(hits))/unique_kw >= 0.5` is exact arithmetic
(`2 * len(set(hits)) >= unique_kw`); the float division can only differ
from the exact value by far less than the distance to the threshold. -/
def queryRelevanceBoost (blob : Str) (qc : Option QueryContext) (w : Weights) :
    Int × List Str :=
  match qc with
  | none => (0, [])
  | some q =>
    let raw := pyLower (pyStrip q.raw_query)
    let phrase :=
      if raw ≠ [] ∧ 12 ≤ raw.length ∧ pyIn raw blob then
        let p := pyInt w.query_exact_phrase
        (p, ["+".data ++ intStr p ++ " query phrase match".data])
      else ((0 : Int), ([] : List Str))
    let conceptHits :=
      (q.concepts.filter fun g =>
        let ts := (g.map fun t => pyLower (pyStrip t)).filter fun t => t ≠ []
        !ts.isEmpty && ts.any fun t => containsTermScore blob t).length
    let concept :=
      if conceptHits ≠ 0 then
        let p := pyInt w.query_concept * conceptHits
        (p, ["+".data ++ intStr p ++ " query concept match (".data ++
          natStr conceptHits ++ ")".data])
      else ((0 : Int), ([] : List Str))
    let ks := (q.keywords.map fun k => pyLower (pyStrip k)).filter fun k => k ≠ []
    let hits := ks.filter fun k => containsTermScore blob k
    let keyword :=
      if hits ≠ [] then
        let counted := min hits.dedup.length 6
        let p := pyInt w.query_keyword * counted
        let uniqueKw := ks.dedup.length
        let cov :=
          if 3 ≤ uniqueKw ∧ 2 * hits.dedup.length ≥ uniqueKw then
            let pc := pyInt w.query_coverage
            (pc, ["+".data ++ intStr pc ++ " query coverage".data])
          else ((0 : Int), ([] : List Str))
        (p + cov.1, ("+".data ++ intStr p ++ " query keyword match (".data ++
          natStr counted ++ ")".data) :: cov.2)
      else ((0 : Int), ([] : List Str))
    (phrase.1 + concept.1 + keyword.1, phrase.2 ++ concept.2 ++ keyword.2)

/-- A pack-rule dictionary as consumed by the scorer and the orchestrator
(`packs.get_pack` output or `_default_rules()`); absent keys are the
empty-list defaults used at the access sites. -/
structure Rules where
  pubmed_query : Str := []
  trials_query : Str := []
  include_terms : List Str := []
  exclude_terms : List Str := []
  global_penalty_terms : List Str := []
  major_journals : List Str := []
  search_query_context : Option QueryContext := none
deriving DecidableEq

/-- A phrase rule contribution with a `+`-prefixed explanation entry. -/
def contribIf (cond : Bool) (points : Int) (label : Str) : Int × List Str :=
  if cond then (points, ["+".data ++ intStr points ++ " ".data ++ label]) else (0, [])

/-- A penalty rule contribution: the explanation starts with the signed
points value itself (`f"{p} {label}"`). -/
def contribBare (cond : Bool) (points : Int) (label : Str) : Int × List Str :=
  if cond then (points, [intStr points ++ " ".data ++ label]) else (0, [])

/-- The include-term loop: every list entry whose lowercased term occurs in
the blob adds `points` and one explanation line. -/
def includeFold (blob : Str) (points : Int) (terms : List Str) : Int × List Str :=
  terms.foldl
    (fun acc term =>
      if pyIn (pyLower term) blob then
        (acc.1 + points,
         acc.2 ++ ["+".data ++ intStr points ++ " include term: ".data ++ term])
      else acc)
    (0, [])

/-- The exclude-term loop (signed points, no `+` prefix). -/
def excludeFold (blob : Str) (points : Int) (terms : List Str) : Int × List Str :=
  terms.foldl
    (fun acc term =>
      if pyIn (pyLower term) blob then
        (acc.1 + points,
         acc.2 ++ [intStr points ++ " exclude term: ".data ++ term])
      else acc)
    (0, [])

/-- The citation bonus: `int(log1p(citations) * citations_multiplier)`,
added only when positive; `math.log1p` is passed in as a function. -/
def citationsContrib (log1p : Int → ℚ) (c : Option Int) (w : Weights) :
    Int × List Str :=
  match c with
  | none => (0, [])
  | some v =>
    if 0 ≤ v then
      let b := pyInt (log1p v * w.citations_multiplier)
      if 0 < b then (b, ["+".data ++ intStr b ++ " citations bonus".data]) else (0, [])
    else (0, [])

/-- The scoring text: lowercased title and abstract joined by one space. -/
def scoreBlob (item : ItemDict) : Str :=
  pyLower (orBlank item.title) ++ " ".data ++ pyLower (orBlank item.abstract_or_text)

/-- `score_item`: additive rule-based scoring; the contributions are listed
in the source's evaluation order and the explanation is their concatenation. -/
def score_item (log1p : Int → ℚ) (item : ItemDict) (pack_rules : Rules)
    (overrides : Option (List (Str × Option ℚ))) : Int × List Str :=
  let blob := scoreBlob item
  let venue := pyLower (orBlank item.venue)
  let w := resolvedWeights overrides
  let p1 := contribIf (hasAny blob ["phase iii".data, "phase 3".data])
    (pyInt w.phase_iii) ("phase iii".data)
  let p2 := contribIf (hasAny blob ["randomized".data, "rct".data])
    (pyInt w.randomized) ("randomized".data)
  let p3 := contribIf (hasAny blob ["meta-analysis".data, "systematic review".data])
    (pyInt w.meta_analysis) ("meta-analysis".data)
  let p4 := contribIf (hasAny blob ["phase ii".data, "phase 2".data])
    (pyInt w.phase_ii) ("phase ii".data)
  let p5 := contribIf (hasAny blob ["overall survival".data, " os ".data])
    (pyInt w.overall_survival) ("overall survival".data)
  let p6 := contribIf (hasAny blob ["progression-free survival".data, " pfs ".data])
    (pyInt w.progression_free_survival) ("progression-free survival".data)
  let p7 := contribIf (sample_size_boost blob) (pyInt w.sample_size)
    ("sample size >=200".data)
  let p8 := contribIf ((pack_rules.major_journals.map pyLower).any fun j => pyIn j venue)
    (pyInt w.major_journal) ("major journal".data)
  let p9 := citationsContrib log1p item.citations w
  let pre := ["mouse".data, "murine".data, "cell line".data, "in vitro".data]
  let p10 := contribBare (!pre.isEmpty && hasAny blob (pre.map pyLower))
    (pyInt w.preclinical_penalty) ("preclinical signal".data)
  let cr := ["case report".data]
  let p11 := contribBare (!cr.isEmpty && hasAny blob (cr.map pyLower))
    (pyInt w.case_report_penalty) ("case report".data)
  let gp := pack_rules.global_penalty_terms
  let p12 := contribBare (!gp.isEmpty && hasAny blob (gp.map pyLower))
    (pyInt w.global_penalty) ("global penalty".data)
  let p13 := includeFold blob (pyInt w.include_term) pack_rules.include_terms
  let p14 := excludeFold blob (pyInt w.exclude_term) pack_rules.exclude_terms
  let p15 := queryRelevanceBoost blob pack_rules.search_query_context w
  (p1.1 + p2.1 + p3.1 + p4.1 + p5.1 + p6.1 + p7.1 + p8.1 + p9.1 + p10.1 +
     p11.1 + p12.1 + p13.1 + p14.1 + p15.1,
   p1.2 ++ p2.2 ++ p3.2 ++ p4.2 ++ p5.2 ++ p6.2 ++ p7.2 ++ p8.2 ++ p9.2 ++
     p10.2 ++ p11.2 ++ p12.2 ++ p13.2 ++ p14.2 ++ p15.2)

/-- `score_and_attach`: runs the scorer and writes `score` and
`score_explain` back onto the item (the JSON serialisation of the
explanation list is represented by the list itself). -/
def score_and_attach (log1p : Int → ℚ) (item : ItemDict) (pack_rules : Rules)
    (overrides : Option (List (Str × Option ℚ))) : ItemDict :=
  let r := score_item log1p item pack_rules overrides
  { item with score := some r.1, score_explain := r.2 }

/-! ### `oncopulse/db.py`

The SQLite store is modelled in memory: the `items` and `run_history`
tables are lists of rows in insertion order with explicit autoincrement
counters. The `notes`, `topics` and `citation_cache` tables are
not touched by any claim and are omitted. Timestamps are integer seconds
(`_now_iso_utc` strings always parse back). -/

structure ItemRow where
  id : Nat
  specialty : Str
  subcategory : Str
  mode_name : Option Str
  source : Str
  title : Str
  url : Option Str
  published_at : Option Str
  updated_at : Option Str
  pmid : Option Str
  doi : Option Str
  nct_id : Option Str
  venue : Option Str
  authors : Option Str
  abstract_or_text : Option Str
  score : Int
  score_explain_json : List Str
  summary_text : Option Str
  citations : Option Int
  citations_source : Option Str
  fingerprint : Str
  created_at : Int
  last_seen_at : Int
deriving DecidableEq

structure RunRow where
  id : Nat
  specialty : Str
  subcategory : Str
  mode_name : Option Str
  sources_key : Option Str
  resolved_days_back : Option Int
  force_full_refresh : Bool
  started_at : Int
  finished_at : Option Int
  status : Str
  ingested_count : Int
  deduped_count : Int
  error_text : Option Str
deriving DecidableEq

structure DB where
  items : List ItemRow := []
  runs : List RunRow := []
  next_item_id : Nat := 1
  next_run_id : Nat := 1
deriving DecidableEq

/-- The column values `upsert_item` binds from the item dict (defaults as
in the Python `payload`). -/
def newItemRow (id : Nat) (item : ItemDict) (fp : Str) (now : Int) : ItemRow :=
  { id := id
    specialty := orBlank item.specialty
    subcategory := orBlank item.subcategory
    mode_name := item.mode_name
    source := orBlank item.source
    title := orBlank item.title
    url := item.url
    published_at := item.published_at
    updated_at := item.updated_at
    pmid := item.pmid
    doi := item.doi
    nct_id := item.nct_id
    venue := item.venue
    authors := item.authors
    abstract_or_text := item.abstract_or_text
    score := item.score.getD 0
    score_explain_json := item.score_explain
    summary_text := item.summary_text
    citations := item.citations
    citations_source := item.citations_source
    fingerprint := fp
    created_at := now
    last_seen_at := now }

/-- The `ON CONFLICT(fingerprint) DO UPDATE` row: every payload column is
overwritten except `id` and `created_at`. -/
def updateItemRow (old : ItemRow) (item : ItemDict) (fp : Str) (now : Int) : ItemRow :=
  { newItemRow old.id item fp now with created_at := old.created_at }

def replaceOnConflict (item : ItemDict) (fp : Str) (now : Int) :
    List ItemRow → List ItemRow
  | [] => []
  | r :: t =>
    if r.fingerprint = fp then updateItemRow r item fp now :: t
    else r :: replaceOnConflict item fp now t

/-- `upsert_item`: insert keyed on the unique `fingerprint` column,
updating the existing row's mutable columns on conflict. `none` models the
`NOT NULL` violation raised when the item carries no fingerprint (never
reached from the pipeline, which always assigns one first). -/
def upsert_item (db : DB) (item : ItemDict) (now : Int) : Option DB :=
  match item.fingerprint with
  | none => none
  | some fp =>
    if db.items.any fun r => r.fingerprint = fp then
      some { db with items := replaceOnConflict item fp now db.items }
    else
      some { db with
        items := db.items ++ [newItemRow db.next_item_id item fp now]
        next_item_id := db.next_item_id + 1 }

/-- `clear_scope_items`: delete every item of the given scope. -/
def clear_scope_items (db : DB) (specialty subcategory : Str) : DB :=
  { db with items := db.items.filter fun r =>
      ¬(r.specialty = specialty ∧ r.subcategory = subcategory) }

/-- `create_run`: open a `running` RunRecord, returning its rowid. -/
def create_run (db : DB) (specialty subcategory : Str) (mode_name : Option Str)
    (sources_key : Option Str) (resolved_days_back : Option Int)
    (force_full_refresh : Bool) (now : Int) : Nat × DB :=
  let row : RunRow :=
    { id := db.next_run_id
      specialty := specialty
      subcategory := subcategory
      mode_name := mode_name
      sources_key := sources_key
      resolved_days_back := resolved_days_back
      force_full_refresh := force_full_refresh
      started_at := now
      finished_at := none
      status := "running".data
      ingested_count := 0
      deduped_count := 0
      error_text := none }
  (db.next_run_id, { db with runs := db.runs ++ [row], next_run_id := db.next_run_id + 1 })

/-- `finish_run`: finalize the RunRecord with a terminal status and counts. -/
def finish_run (db : DB) (run_id : Nat) (status : Str) (ingested_count deduped_count : Int)
    (error_text : Option Str) (now : Int) : DB :=
  { db with runs := db.runs.map fun r =>
      if r.id = run_id then
        { r with finished_at := some now, status := status,
                 ingested_count := ingested_count, deduped_count := deduped_count,
                 error_text := error_text }
      else r }

def runRowMatches (specialty subcategory : Str) (mode_name sources_key : Option Str)
    (r : RunRow) : Bool :=
  r.specialty = specialty && r.subcategory = subcategory &&
  r.status = "success".data &&
  (match mode_name with | none => true | some m => r.mode_name = some m) &&
  (match sources_key with | none => true | some s => r.sources_key = some s)

def runRecency (r : RunRow) : Int := r.finished_at.getD r.started_at

/-- `get_last_successful_run`: the `success` row matching scope (and, when
given, mode and sources key) with the greatest `COALESCE(finished_at,
started_at)`; among equal keys SQLite's order is unspecified and the
earliest row is returned. -/
def get_last_successful_run (db : DB) (specialty subcategory : Str)
    (mode_name sources_key : Option Str) : Option RunRow :=
  (db.runs.filter (runRowMatches specialty subcategory mode_name sources_key)).foldl
    (fun acc r =>
      match acc with
      | none => some r
      | some a => if runRecency r > runRecency a then some r else some a)
    none

/-! ### `oncopulse/services/run_pipeline.py` -/

/-- `RunOptions` with the source's defaults. `scoring_weights` is the
optional override dict of `_resolved_weights`. -/
structure RunOptions where
  mode_name : Str := "All".data
  days_back : Int := 14
  retmax_pubmed : Int := 200
  trials_limit : Int := 100
  europepmc_limit : Int := 100
  preprint_limit : Int := 100
  rss_limit : Int := 100
  fda_limit : Int := 100
  include_trials : Bool := true
  include_papers : Bool := true
  include_preprints : Bool := false
  include_journal_rss : Bool := true
  include_fda_approvals : Bool := true
  enrich_citations : Bool := false
  phase_2_3_only : Bool := false
  rct_meta_only : Bool := false
  max_run_seconds : Int := 45
  scoring_weights : Option (List (Str × Option ℚ)) := none
  enable_semantic_scholar : Bool := false
  incremental_cap_days : Option Int := none
  force_full_refresh : Bool := false
  use_full_text_oa : Bool := false
  llm_polish_summary : Bool := false
deriving DecidableEq

def joinComma : List Str → Str
  | [] => []
  | [s] => s
  | s :: t => s ++ ",".data ++ joinComma t

/-- `build_sources_key`: the canonical comma-joined enabled-source tags. -/
def build_sources_key (o : RunOptions) : Str :=
  let sel :=
    (if o.include_papers then ["papers".data] else []) ++
    (if o.include_trials then ["trials".data] else []) ++
    (if o.include_preprints then ["preprints".data] else []) ++
    (if o.include_journal_rss then ["journal_rss".data] else []) ++
    (if o.include_fda_approvals then ["fda".data] else [])
  if sel = [] then "none".data else joinComma sel

/-- Ceiling division of integers for a positive divisor (`math.ceil` of the
exact quotient). -/
def ceilDivInt (a b : Int) : Int := -((-a).fdiv b)

/-- The incremental cap, `options.incremental_cap_days or options.days_back`
(Python `or`: both `None` and `0` are falsy). -/
def capDays (o : RunOptions) : Int :=
  match o.incremental_cap_days with
  | some c => if c = 0 then o.days_back else c
  | none => o.days_back

/-- `resolve_incremental_days_back`. The ledger's
timestamps are written by `datetime.isoformat`, so the unparseable-text
branch of `_parse_iso_datetime` cannot fire and is not represented. -/
def resolve_incremental_days_back (db : DB) (specialty subcategory : Str)
    (o : RunOptions) (now : Int) : Int × Option RunRow :=
  if o.force_full_refresh then (o.days_back, none)
  else
    let cap_days := capDays o
    match get_last_successful_run db specialty subcategory (some o.mode_name)
        (some (build_sources_key o)) with
    | none => (min o.days_back cap_days, none)
    | some last =>
      let referenceSec := last.finished_at.getD last.started_at
      let resolved := max 1 (ceilDivInt (now - referenceSec) 86400)
      (min resolved cap_days, some last)

/-- The text `_apply_filters` inspects: lowercased `"{title} {abstract}"`. -/
def filterText (item : ItemDict) : Str :=
  pyLower (orBlank item.title ++ " ".data ++ orBlank item.abstract_or_text)

/-- `_apply_filters`: the coarse phase-II/III and RCT/meta inclusion filters. -/
def _apply_filters (items : List ItemDict) (o : RunOptions) : List ItemDict :=
  items.filter fun item =>
    let text := filterText item
    (!o.phase_2_3_only ||
      ["phase ii".data, "phase 2".data, "phase iii".data, "phase 3".data].any
        fun t => pyIn t text) &&
    (!o.rct_meta_only ||
      ["randomized".data, "rct".data, "meta-analysis".data, "systematic review".data].any
        fun t => pyIn t text)

/-- `_default_rules()` for free-text search runs. -/
def _default_rules : Rules :=
  { include_terms := []
    exclude_terms := []
    global_penalty_terms :=
      ["case report".data, "in vitro".data, "murine".data, "mouse".data]
    major_journals :=
      ["NEJM".data, "J Clin Oncol".data, "Lancet".data, "Lancet Oncology".data,
       "Annals of Oncology".data, "Nature Medicine".data, "Blood".data] }

/-- `_query_key`: the synthetic subcategory key of a free-text query. -/
def _query_key (query : Str) : Str :=
  "query:".data ++ (pyLower (pyStrip query)).take 180

def joinSpace : List Str → Str
  | [] => []
  | [s] => s
  | s :: t => s ++ " ".data ++ joinSpace t

/-- `_item_search_blob`: the lowercased join of the searchable fields. -/
def _item_search_blob (item : ItemDict) : Str :=
  pyLower (joinSpace
    [orBlank item.title, orBlank item.abstract_or_text, orBlank item.conditions,
     orBlank item.interventions, orBlank item.primary_endpoints,
     orBlank item.study_type, orBlank item.phase])

/-- `run_pipeline._contains_query_term`: alphanumeric tokens are matched on
word boundaries, other tokens by substring containment. -/
def containsQueryTerm (blob term : Str) : Bool :=
  let token := pyLower (pyStrip term)
  if token = [] then false
  else if token.all isLowerAlnum then wordSearch blob token
  else pyIn token blob

/-- Python `str(x or y)` for an optional string with falsy `None`/`""`. -/
def pyOrStr (a : Option Str) (b : Str) : Str :=
  match a with
  | some s => if s = [] then b else s
  | none => b

/-- `_is_search_relevant`: concept-group overlap, keyword overlap, or a
long-enough literal query match against the item's search blob. -/
def _is_search_relevant (item : ItemDict) (qc : QueryContext) : Bool :=
  let blob := _item_search_blob item
  if pyStrip blob = [] then false
  else
    (qc.concepts.any fun g => g.any fun t => containsQueryTerm blob t) ||
    (qc.keywords.any fun k => containsQueryTerm blob k) ||
    (let raw := pyLower (pyStrip qc.raw_query)
     !raw.isEmpty && decide (4 ≤ raw.length) && pyIn raw blob)

/-- The output of `nlp.build_search_queries` (query expansion, an external
pure function per the spec's interface boundary). -/
structure QueryBundle where
  paper_query : Option Str := none
  trial_query : Option Str := none
  keywords : List Str := []
  concepts : List (List Str) := []

/-- The run environment: one field per external collaborator the pipeline
calls. A connector field holds the result of the single call this run
makes (argument: the query and, where the connector takes one, the
resolved `days_back`); `Except.error` is a raised exception. `clock k` is
the monotonic elapsed seconds observed by the `k`-th `_check_timeout`
call; `now` the wall-clock second used for ledger timestamps. -/
structure ConnEnv where
  pubmed : Str → Int → Except Unit (List ItemDict)
  epmc_papers : Str → Int → Except Unit (List ItemDict)
  rss : Str → Except Unit (List ItemDict)
  preprint_search : Str → Int → Except Unit (List ItemDict)
  epmc_preprints : Str → Int → Except Unit (List ItemDict)
  trials : Str → Except Unit (List ItemDict)
  fda : Str → Int → Except Unit (List ItemDict)
  get_pack : Str → Str → Except Str Rules
  expand : Str → QueryBundle
  enrich_fulltext : ItemDict → ItemDict
  openalex_citations : Option Str → Option Int
  s2_citations : Option Str → Option Int
  summarize : ItemDict → Bool → Str
  log1p : Int → ℚ
  clock : Nat → Int
  now : Int

/-- `_check_timeout`: raises iff the budget is non-zero (Python truthiness)
and the monotonic elapsed time exceeds it. -/
def checkTimeout (o : RunOptions) (env : ConnEnv) (k : Nat) : Bool :=
  decide (o.max_run_seconds ≠ 0) && decide (env.clock k > o.max_run_seconds)

/-- One `check_timeout()` call: advances the tick or raises `TimeoutError`. -/
def tickE (o : RunOptions) (env : ConnEnv) (k : Nat) : Except Unit Nat :=
  if checkTimeout o env k then Except.error () else Except.ok (k + 1)

/-- A `try/except` around one connector call: an exception degrades to `[]`. -/
def okList (e : Except Unit (List ItemDict)) : List ItemDict :=
  match e with
  | .ok l => l
  | .error _ => []

/-- Stamp the current scope onto fetched records. -/
def tagScope (specialty subcategory : Str) (l : List ItemDict) : List ItemDict :=
  l.map fun p => { p with specialty := some specialty, subcategory := some subcategory }

def papersBlock (env : ConnEnv) (specialty subcategory pq : Str) (o : RunOptions)
    (st : List ItemDict × Nat) : Except Unit (List ItemDict × Nat) :=
  if o.include_papers then
    match tickE o env st.2 with
    | .error _ => .error ()
    | .ok k1 =>
      let acc1 := st.1 ++ tagScope specialty subcategory (okList (env.pubmed pq o.days_back))
      match tickE o env k1 with
      | .error _ => .error ()
      | .ok k2 =>
        let acc2 := acc1 ++ tagScope specialty subcategory (okList (env.epmc_papers pq o.days_back))
        if o.include_journal_rss then
          match tickE o env k2 with
          | .error _ => .error ()
          | .ok k3 => .ok (acc2 ++ tagScope specialty subcategory (okList (env.rss pq)), k3)
        else .ok (acc2, k2)
  else .ok st

def preprintsBlock (env : ConnEnv) (specialty subcategory pq : Str) (o : RunOptions)
    (st : List ItemDict × Nat) : Except Unit (List ItemDict × Nat) :=
  if o.include_preprints then
    match tickE o env st.2 with
    | .error _ => .error ()
    | .ok k1 =>
      let acc1 := st.1 ++ tagScope specialty subcategory (okList (env.preprint_search pq o.days_back))
      match tickE o env k1 with
      | .error _ => .error ()
      | .ok k2 =>
        .ok (acc1 ++ tagScope specialty subcategory (okList (env.epmc_preprints pq o.days_back)), k2)
  else .ok st

def trialsBlock (env : ConnEnv) (specialty subcategory tq : Str) (o : RunOptions)
    (st : List ItemDict × Nat) : Except Unit (List ItemDict × Nat) :=
  if o.include_trials then
    match tickE o env st.2 with
    | .error _ => .error ()
    | .ok k1 => .ok (st.1 ++ tagScope specialty subcategory (okList (env.trials tq)), k1)
  else .ok st

def fdaBlock (env : ConnEnv) (specialty subcategory tq : Str) (o : RunOptions)
    (st : List ItemDict × Nat) : Except Unit (List ItemDict × Nat) :=
  if o.include_fda_approvals then
    match tickE o env st.2 with
    | .error _ => .error ()
    | .ok k1 => .ok (st.1 ++ tagScope specialty subcategory (okList (env.fda tq o.days_back)), k1)
  else .ok st

/-- `_ingest_for_query`: the sequential connector fan-out with a
`check_timeout()` before each call; a raised `TimeoutError` unwinds and
the list built so far does not escape. -/
def _ingest_for_query (env : ConnEnv) (specialty subcategory pq tq : Str)
    (o : RunOptions) (k0 : Nat) : Except Unit (List ItemDict × Nat) :=
  papersBlock env specialty subcategory pq o ([], k0) >>=
    preprintsBlock env specialty subcategory pq o >>=
    trialsBlock env specialty subcategory tq o >>=
    fdaBlock env specialty subcategory tq o

structure RunOutcome where
  run_id : Int
  status : Str
  ingested_count : Int
  deduped_count : Int
  timed_out : Bool
deriving DecidableEq

/-- The per-item persist loop of `_finalize_items`: a timeout between
items breaks out, keeping what was already persisted; returns the store,
the persisted count, and the timed-out flag. -/
def finalizeLoop (env : ConnEnv) (rules : Rules) (o : RunOptions) :
    List ItemDict → DB → Nat → Nat → DB × Nat × Bool
  | [], db, persisted, _ => (db, persisted, false)
  | it :: rest, db, persisted, k =>
    if checkTimeout o env k then (db, persisted, true)
    else
      let it1 := { it with fingerprint := some (fingerprint_item it),
                           mode_name := some o.mode_name }
      let it2 :=
        if o.use_full_text_oa &&
            (it1.source == some ("pubmed".data) || it1.source == some ("europepmc".data))
        then env.enrich_fulltext it1 else it1
      let it3 :=
        if o.enrich_citations then
          match env.openalex_citations it2.doi with
          | some v => { it2 with citations := some v, citations_source := some ("openalex".data) }
          | none =>
            if o.enable_semantic_scholar then
              match env.s2_citations it2.pmid with
              | some v =>
                { it2 with citations := some v, citations_source := some ("semantic_scholar".data) }
              | none => { it2 with citations := none, citations_source := none }
            else { it2 with citations := none, citations_source := none }
        else { it2 with citations := none, citations_source := none }
      let it4 := score_and_attach env.log1p it3 rules o.scoring_weights
      let it5 := { it4 with summary_text := some (env.summarize it4 o.llm_polish_summary) }
      -- it5.fingerprint is always `some`, so the upsert cannot hit the
      -- NOT NULL branch and the `getD` default is unreachable
      let db2 := (upsert_item db it5 env.now).getD db
      finalizeLoop env rules o rest db2 (persisted + 1) (k + 1)

/-- `_finalize_items`: filter, deduplicate, enrich/score/persist item by
item under the remaining budget, then finalize the RunRecord. -/
def _finalize_items (env : ConnEnv) (db : DB) (run_id : Nat)
    (ingested : List ItemDict) (rules : Rules) (o : RunOptions) (k : Nat) :
    RunOutcome × DB :=
  let filtered := _apply_filters ingested o
  let unique := deduplicate filtered
  let res := finalizeLoop env rules o unique db 0 k
  let status := if res.2.2 then "timeout".data else "success".data
  let db3 := finish_run res.1 run_id status ingested.length res.2.1 none env.now
  ({ run_id := run_id, status := status, ingested_count := ingested.length,
     deduped_count := res.2.1, timed_out := res.2.2 }, db3)

def timeoutMsg (o : RunOptions) : Str :=
  "Timed out after ".data ++ intStr o.max_run_seconds ++ "s".data

/-- `run_pipeline`. The returned `Except` is the Python control flow: `.ok`
is a normal return, `.error` a propagated unexpected exception (after the
RunRecord was finalized as `failed`). In the `TimeoutError` handler the
local `ingested` is still the pre-`try` empty list — the records fetched
before the signal were lost with the unwound helper frame — so the
timeout outcome always carries zero counts. -/
def run_pipeline (env : ConnEnv) (db : DB) (specialty subcategory : Str)
    (o : RunOptions) : Except Str RunOutcome × DB :=
  let r := resolve_incremental_days_back db specialty subcategory o env.now
  let eff := { o with days_back := r.1 }
  let cr := create_run db specialty subcategory (some eff.mode_name)
    (some (build_sources_key eff)) (some r.1) eff.force_full_refresh env.now
  match env.get_pack specialty subcategory with
  | .error msg =>
    (.error msg, finish_run cr.2 cr.1 ("failed".data) 0 0 (some msg) env.now)
  | .ok rules =>
    match _ingest_for_query env specialty subcategory rules.pubmed_query
        rules.trials_query eff 0 with
    | .error _ =>
      (.ok { run_id := cr.1, status := "timeout".data, ingested_count := 0,
             deduped_count := 0, timed_out := true },
       finish_run cr.2 cr.1 ("timeout".data) 0 0 (some (timeoutMsg eff)) env.now)
    | .ok st =>
      let res := _finalize_items env cr.2 cr.1 st.1 rules eff st.2
      (.ok res.1, res.2)

/-- `run_pipeline_query`: the free-text entry point. A blank query
short-circuits before any ledger or connector activity; otherwise the
synthetic scope's cached items are cleared, the window is resolved from
the ledger, and the merged results are additionally filtered by
`_is_search_relevant` before finalization. -/
def run_pipeline_query (env : ConnEnv) (db : DB) (query : Str) (o : RunOptions) :
    Except Str RunOutcome × DB :=
  let query_text := pyStrip query
  if query_text = [] then
    (.ok { run_id := -1, status := "failed".data, ingested_count := 0,
           deduped_count := 0, timed_out := false }, db)
  else
    let specialty := "search".data
    let subcategory := _query_key query_text
    let r := resolve_incremental_days_back db specialty subcategory o env.now
    let eff := { o with days_back := r.1 }
    -- "Search mode is always source-driven: clear previous cached records
    -- for this query scope."
    let db0 := clear_scope_items db specialty subcategory
    let cr := create_run db0 specialty subcategory (some eff.mode_name)
      (some (build_sources_key eff)) (some r.1) eff.force_full_refresh env.now
    let bundle := env.expand query_text
    let pq := pyOrStr bundle.paper_query query_text
    let tq := pyOrStr bundle.trial_query query_text
    let qc : QueryContext :=
      { raw_query := query_text, keywords := bundle.keywords, concepts := bundle.concepts }
    let rules : Rules :=
      { _default_rules with include_terms := bundle.keywords,
                            search_query_context := some qc }
    match _ingest_for_query env specialty subcategory pq tq eff 0 with
    | .error _ =>
      (.ok { run_id := cr.1, status := "timeout".data, ingested_count := 0,
             deduped_count := 0, timed_out := true },
       finish_run cr.2 cr.1 ("timeout".data) 0 0 (some (timeoutMsg eff)) env.now)
    | .ok st =>
      let ingested := st.1.filter fun i => _is_search_relevant i qc
      let res := _finalize_items env cr.2 cr.1 ingested rules eff st.2
      (.ok res.1, res.2)

example : pyLower ("Phase III, N=250!".data) = "phase iii, n=250!".data := by decide
example : pyStrip ("  a b ".data) = "a b".data := by decide
example : pyIn ("phase ii".data) ("a phase iii trial".data) = true := by decide
example : normalize_title ("  The BIG-Trial: (phase) III! ".data) =
    "the big trial phase iii ".data := by decide
example : year_bucket (some ("2024-05-06".data)) = "2024".data := by decide
example : year_bucket (some ("May 3".data)) = "unknown".data := by decide
example : fingerprint_item { doi := some (" 10.1000/ABC ".data) } =
    "doi:10.1000/abc".data := by decide

/-! ## Claims -/

/-- A trivial environment used to instantiate run-level theorems: every
connector succeeds with an empty result, the clock never advances. -/
def idleEnv : ConnEnv :=
  { pubmed := fun _ _ => .ok []
    epmc_papers := fun _ _ => .ok []
    rss := fun _ => .ok []
    preprint_search := fun _ _ => .ok []
    epmc_preprints := fun _ _ => .ok []
    trials := fun _ => .ok []
    fda := fun _ _ => .ok []
    get_pack := fun _ _ => .ok {}
    expand := fun _ => {}
    enrich_fulltext := fun i => i
    openalex_citations := fun _ => none
    s2_citations := fun _ => none
    summarize := fun _ _ => []
    log1p := fun _ => 0
    clock := fun _ => 0
    now := 0 }

/-- C10: for every blank (empty or whitespace-only) free-text query, the
query entry point short-circuits before any ledger lookup or connector
activity and returns a `failed` outcome with both counts zero; the store,
including the run ledger, is left untouched (no RunRecord written). -/
theorem c10_blank_query_short_circuits (env : ConnEnv) (db : DB) (q : Str)
    (o : RunOptions) (hq : pyStrip q = []) :
    run_pipeline_query env db q o =
      (.ok { run_id := -1, status := "failed".data, ingested_count := 0,
             deduped_count := 0, timed_out := false }, db) := by
  simp [run_pipeline_query, hq]

/-- C10 witness: a whitespace-only query against an empty store. -/
theorem c10_blank_query_short_circuits_witness :
    pyStrip ("  ".data) = [] ∧
    run_pipeline_query idleEnv {} ("  ".data) {} =
      (.ok { run_id := -1, status := "failed".data, ingested_count := 0,
             deduped_count := 0, timed_out := false }, {}) :=
  ⟨by decide, c10_blank_query_short_circuits idleEnv {} ("  ".data) {} (by decide)⟩

/-- C6: `resolve_incremental_days_back` (a) returns the requested window
unchanged with no ledger result when `force_full_refresh` is set; (b) with
no exactly matching prior `success` run returns `min(requested, cap)`;
(c) with a matching run returns the ceiling of elapsed whole days since
its `finished_at` (or `started_at` when absent), clamped to at least 1
and to the incremental cap; in particular an elapsed time between 2 and 3
days yields an effective window of 2 or 3 days. -/
theorem c6_resolve_window (db : DB) (sp sc : Str) (o : RunOptions) (now : Int) :
    (o.force_full_refresh = true →
      resolve_incremental_days_back db sp sc o now = (o.days_back, none)) ∧
    (o.force_full_refresh = false →
      (get_last_successful_run db sp sc (some o.mode_name) (some (build_sources_key o)) =
          none →
        resolve_incremental_days_back db sp sc o now = (min o.days_back (capDays o), none)) ∧
      (∀ last,
        get_last_successful_run db sp sc (some o.mode_name) (some (build_sources_key o)) =
            some last →
        resolve_incremental_days_back db sp sc o now =
          (min (max 1 (ceilDivInt (now - last.finished_at.getD last.started_at) 86400))
            (capDays o), some last) ∧
        (172800 ≤ now - last.finished_at.getD last.started_at →
          now - last.finished_at.getD last.started_at ≤ 259200 →
          3 ≤ capDays o →
          (resolve_incremental_days_back db sp sc o now).1 = 2 ∨
            (resolve_incremental_days_back db sp sc o now).1 = 3))) := by
  refine ⟨fun hf => ?_, fun hf => ⟨fun hn => ?_, fun last hl => ⟨?_, fun h2 h3 hcap => ?_⟩⟩⟩
  · simp [resolve_incremental_days_back, hf]
  · simp [resolve_incremental_days_back, hf, hn]
  · simp [resolve_incremental_days_back, hf, ‹_›]
  · have hres : resolve_incremental_days_back db sp sc o now =
        (min (max 1 (ceilDivInt (now - last.finished_at.getD last.started_at) 86400))
          (capDays o), some last) := by
      simp [resolve_incremental_days_back, hf, hl]
    rw [hres]
    set d := now - last.finished_at.getD last.started_at with hd
    have hq := Int.ediv_add_emod (-d) 86400
    have hr0 : 0 ≤ (-d) % 86400 := Int.emod_nonneg _ (by norm_num)
    have hr1 : (-d) % 86400 < 86400 := Int.emod_lt_of_pos _ (by norm_num)
    have hfd : (-d).fdiv 86400 = (-d) / 86400 := Int.fdiv_eq_ediv _ (by norm_num)
    simp only [ceilDivInt, hfd]
    omega

theorem isPyWs_pyLowerChar (c : Char) : isPyWs (pyLowerChar c) = isPyWs c := by
  simp only [isPyWs, pyLowerChar]
  split
  · rename_i h
    obtain ⟨h1, h2⟩ := h
    generalize hg : c.toNat = n at h1 h2 ⊢
    interval_cases n <;> decide
  · rfl

/-- Stripping commutes with lowercasing, because case-mapping never turns a
whitespace character into a non-whitespace one or vice versa. -/
theorem pyStrip_pyLower (s : Str) : pyStrip (pyLower s) = pyLower (pyStrip s) := by
  have hcomp : isPyWs ∘ pyLowerChar = isPyWs := by
    funext c; exact isPyWs_pyLowerChar c
  simp only [pyStrip, pyLower, List.dropWhile_map, ← List.map_reverse, hcomp]

theorem fingerprint_item_doi (it : ItemDict)
    (h : pyLower (pyStrip (orBlank it.doi)) ≠ []) :
    fingerprint_item it = "doi:".data ++ pyLower (pyStrip (orBlank it.doi)) := by
  simp [fingerprint_item, h]

theorem fingerprint_item_pmid (it : ItemDict)
    (hd : pyLower (pyStrip (orBlank it.doi)) = [])
    (h : pyLower (pyStrip (orBlank it.pmid)) ≠ []) :
    fingerprint_item it = "pmid:".data ++ pyLower (pyStrip (orBlank it.pmid)) := by
  simp [fingerprint_item, hd, h]

theorem fingerprint_item_nct (it : ItemDict)
    (hd : pyLower (pyStrip (orBlank it.doi)) = [])
    (hp : pyLower (pyStrip (orBlank it.pmid)) = [])
    (h : pyLower (pyStrip (orBlank it.nct_id)) ≠ []) :
    fingerprint_item it = "nct_id:".data ++ pyLower (pyStrip (orBlank it.nct_id)) := by
  simp [fingerprint_item, hd, hp, h]

theorem fingerprint_item_fallback (it : ItemDict)
    (hd : pyLower (pyStrip (orBlank it.doi)) = [])
    (hp : pyLower (pyStrip (orBlank it.pmid)) = [])
    (hn : pyLower (pyStrip (orBlank it.nct_id)) = []) :
    fingerprint_item it =
      "titleyear:".data ++
        (sha1Hex (utf8Encode ("title:".data ++ normalize_title (orBlank it.title) ++
          "|year:".data ++ year_bucket (pyOrOpt it.published_at it.updated_at)))).take 16 := by
  simp [fingerprint_item, hd, hp, hn]

/-- C4: the fingerprint is `"<kind>:<lowercased identifier>"` for the first
present identifier in the fixed priority order DOI, PMID, trial-registry
id; two records whose DOIs agree up to case get identical fingerprints
regardless of every other field; and only with all three identifiers
absent does the fingerprint fall back to the `titleyear:` digest of the
normalized title and the year bucket, which is `"unknown"` when no date
is present. -/
theorem c4_fingerprint_identifier_priority :
    (∀ it : ItemDict, pyLower (pyStrip (orBlank it.doi)) ≠ [] →
      fingerprint_item it = "doi:".data ++ pyLower (pyStrip (orBlank it.doi))) ∧
    (∀ it : ItemDict, pyLower (pyStrip (orBlank it.doi)) = [] →
      pyLower (pyStrip (orBlank it.pmid)) ≠ [] →
      fingerprint_item it = "pmid:".data ++ pyLower (pyStrip (orBlank it.pmid))) ∧
    (∀ it : ItemDict, pyLower (pyStrip (orBlank it.doi)) = [] →
      pyLower (pyStrip (orBlank it.pmid)) = [] →
      pyLower (pyStrip (orBlank it.nct_id)) ≠ [] →
      fingerprint_item it = "nct_id:".data ++ pyLower (pyStrip (orBlank it.nct_id))) ∧
    (∀ i1 i2 : ItemDict,
      pyLower (orBlank i1.doi) = pyLower (orBlank i2.doi) →
      pyLower (pyStrip (orBlank i1.doi)) ≠ [] →
      fingerprint_item i1 = fingerprint_item i2) ∧
    (∀ it : ItemDict, pyLower (pyStrip (orBlank it.doi)) = [] →
      pyLower (pyStrip (orBlank it.pmid)) = [] →
      pyLower (pyStrip (orBlank it.nct_id)) = [] →
      fingerprint_item it =
        "titleyear:".data ++
          (sha1Hex (utf8Encode ("title:".data ++ normalize_title (orBlank it.title) ++
            "|year:".data ++ year_bucket (pyOrOpt it.published_at it.updated_at)))).take 16) ∧
    (∀ it : ItemDict, it.published_at = none → it.updated_at = none →
      year_bucket (pyOrOpt it.published_at it.updated_at) = "unknown".data) := by
  refine ⟨fingerprint_item_doi, fingerprint_item_pmid, fingerprint_item_nct,
    fun i1 i2 hc h1 => ?_, fingerprint_item_fallback, fun it hp hu => ?_⟩
  · have e1 : pyLower (pyStrip (orBlank i1.doi)) = pyLower (pyStrip (orBlank i2.doi)) := by
      rw [← pyStrip_pyLower, ← pyStrip_pyLower, hc]
    rw [fingerprint_item_doi i1 h1, fingerprint_item_doi i2 (e1 ▸ h1), e1]
  · rw [hp, hu]; rfl

def c4it1 : ItemDict := { doi := some ("10.1/X".data), title := some ("Trial A".data) }

def c4it2 : ItemDict :=
  { doi := some ("10.1/x".data), title := some ("A different TITLE".data),
    published_at := some ("2021-01-01".data) }

def c4itP : ItemDict := { pmid := some (" 12345 ".data) }

def c4itN : ItemDict := { nct_id := some ("NCT0001".data) }

def c4itT : ItemDict := { title := some ("An untagged report".data) }

/-- C4 witness: each branch of the theorem at a concrete record. -/
theorem c4_fingerprint_identifier_priority_witness :
    (fingerprint_item c4it1 = "doi:".data ++ pyLower (pyStrip (orBlank c4it1.doi))) ∧
    (fingerprint_item c4it1 = fingerprint_item c4it2) ∧
    (fingerprint_item c4itP = "pmid:".data ++ pyLower (pyStrip (orBlank c4itP.pmid))) ∧
    (fingerprint_item c4itN = "nct_id:".data ++ pyLower (pyStrip (orBlank c4itN.nct_id))) ∧
    (fingerprint_item c4itT =
      "titleyear:".data ++
        (sha1Hex (utf8Encode ("title:".data ++ normalize_title (orBlank c4itT.title) ++
          "|year:".data ++ year_bucket (pyOrOpt c4itT.published_at c4itT.updated_at)))).take 16) ∧
    (year_bucket (pyOrOpt c4itT.published_at c4itT.updated_at) = "unknown".data) :=
  ⟨c4_fingerprint_identifier_priority.1 c4it1 (by decide),
   c4_fingerprint_identifier_priority.2.2.2.1 c4it1 c4it2 (by decide) (by decide),
   c4_fingerprint_identifier_priority.2.1 c4itP (by decide) (by decide),
   c4_fingerprint_identifier_priority.2.2.1 c4itN (by decide) (by decide) (by decide),
   c4_fingerprint_identifier_priority.2.2.2.2.1 c4itT (by decide) (by decide) (by decide),
   c4_fingerprint_identifier_priority.2.2.2.2.2 c4itT (by decide) (by decide)⟩

/-- The record `deduplicate` emits for a kept input item: the original
with its effective fingerprint written back. -/
def setFp (it : ItemDict) : ItemDict := { it with fingerprint := some (effFingerprint it) }

/-- The fingerprints `deduplicate` keeps, computed on fingerprints alone. -/
def keepNewFps (seen : List Str) : List Str → List Str
  | [] => []
  | fp :: rest =>
    if fp ∈ seen then keepNewFps seen rest else fp :: keepNewFps (fp :: seen) rest

theorem dedupAux_sublist (seen : List Str) (l : List ItemDict) :
    List.Sublist (dedupAux seen l) (l.map setFp) := by
  induction l generalizing seen with
  | nil => simp [dedupAux]
  | cons it rest ih =>
    simp only [dedupAux, List.map_cons]
    split
    · exact (ih seen).cons _
    · exact (ih _).cons₂ _

theorem dedupAux_map_fp (seen : List Str) (l : List ItemDict) :
    (dedupAux seen l).map (fun i => i.fingerprint) =
      (keepNewFps seen (l.map effFingerprint)).map some := by
  induction l generalizing seen with
  | nil => simp [dedupAux, keepNewFps]
  | cons it rest ih =>
    simp only [dedupAux, List.map_cons, keepNewFps]
    split
    · exact ih seen
    · simp only [List.map_cons]
      exact congrArg (List.cons _) (ih _)

theorem keepNewFps_nodup (seen : List Str) (l : List Str) :
    (keepNewFps seen l).Nodup ∧ ∀ x ∈ keepNewFps seen l, x ∉ seen := by
  induction l generalizing seen with
  | nil => simp [keepNewFps]
  | cons fp rest ih =>
    simp only [keepNewFps]
    split
    · exact ih seen
    · rename_i hfp
      obtain ⟨hnd, hout⟩ := ih (fp :: seen)
      refine ⟨List.nodup_cons.mpr ⟨fun hx => ?_, hnd⟩, fun x hx => ?_⟩
      · exact (hout fp hx) (List.mem_cons_self fp seen)
      · rcases List.mem_cons.mp hx with h | h
        · exact h ▸ hfp
        · exact fun hs => (hout x h) (List.mem_cons_of_mem fp hs)

theorem keepNewFps_toFinset (seen : List Str) (l : List Str) :
    (keepNewFps seen l).toFinset = l.toFinset \ seen.toFinset := by
  induction l generalizing seen with
  | nil => simp [keepNewFps]
  | cons fp rest ih =>
    simp only [keepNewFps]
    split
    · rename_i hfp
      rw [ih seen, List.toFinset_cons,
        Finset.insert_sdiff_of_mem _ (List.mem_toFinset.mpr hfp)]
    · rename_i hfp
      rw [List.toFinset_cons, ih (fp :: seen), List.toFinset_cons]
      ext x
      simp only [Finset.mem_insert, Finset.mem_sdiff, List.mem_toFinset, List.mem_cons]
      by_cases hxfp : x = fp <;> simp [hxfp, hfp]

theorem keepNewFps_length_dedup (l : List Str) :
    (keepNewFps [] l).length = l.dedup.length := by
  have hnd := (keepNewFps_nodup [] l).1
  have hfs := keepNewFps_toFinset [] l
  simp only [List.toFinset_nil, Finset.sdiff_empty] at hfs
  rw [← List.toFinset_card_of_nodup hnd, hfs, List.card_toFinset]

theorem dedupAux_first_mem (it : ItemDict) (l2 : List ItemDict) :
    ∀ (l1 : List ItemDict) (seen : List Str), effFingerprint it ∉ seen →
    effFingerprint it ∉ l1.map effFingerprint →
    setFp it ∈ dedupAux seen (l1 ++ it :: l2) := by
  intro l1
  induction l1 with
  | nil =>
    intro seen h1 _
    simp only [List.nil_append, dedupAux, h1]
    simp [setFp]
  | cons a rest ih =>
    intro seen h1 h2
    simp only [List.map_cons, List.mem_cons] at h2
    push_neg at h2
    simp only [List.cons_append, dedupAux]
    split
    · exact ih seen h1 h2.2
    · refine List.mem_cons_of_mem _ (ih _ ?_ h2.2)
      intro hc
      rcases List.mem_cons.mp hc with h | h
      · exact h2.1 h
      · exact h1 h

/-- C5: `deduplicate` is one stable pass in which the first occurrence of
each fingerprint wins: the output is a sublist of the input (each survivor
keeping its field values, with the fingerprint written back), output
fingerprints are pairwise distinct, the output length is the number of
distinct input fingerprints, the first occurrence of a fingerprint not
seen earlier always survives, and an input with exactly one duplicate
pair comes out exactly one element shorter. -/
theorem c5_deduplicate_stable_first_wins :
    (∀ l : List ItemDict, List.Sublist (deduplicate l) (l.map setFp)) ∧
    (∀ l : List ItemDict, ((deduplicate l).map fun i => i.fingerprint).Nodup) ∧
    (∀ l : List ItemDict, (deduplicate l).length = (l.map effFingerprint).dedup.length) ∧
    (∀ (l1 : List ItemDict) (it : ItemDict) (l2 : List ItemDict),
      effFingerprint it ∉ l1.map effFingerprint →
      setFp it ∈ deduplicate (l1 ++ it :: l2)) ∧
    (∀ l : List ItemDict, (l.map effFingerprint).dedup.length + 1 = l.length →
      (deduplicate l).length + 1 = l.length) := by
  have hlen : ∀ l : List ItemDict,
      (deduplicate l).length = (l.map effFingerprint).dedup.length := by
    intro l
    have h1 : (deduplicate l).length =
        ((deduplicate l).map fun i => i.fingerprint).length := by
      rw [List.length_map]
    rw [h1, deduplicate, dedupAux_map_fp, List.length_map, keepNewFps_length_dedup]
  refine ⟨fun l => dedupAux_sublist [] l, fun l => ?_, hlen,
    fun l1 it l2 h => dedupAux_first_mem it l2 l1 [] (by simp) h,
    fun l h => by rw [hlen l, h]⟩
  · rw [deduplicate, dedupAux_map_fp]
    exact ((keepNewFps_nodup [] _).1).map (fun a b h => Option.some_injective Str h)

def c5a : ItemDict :=
  { title := some ("Trial A".data), doi := some ("10.1/x".data),
    published_at := some ("2024".data) }

def c5b : ItemDict :=
  { title := some ("Trial B".data), doi := some ("10.2/y".data) }

def c5a2 : ItemDict :=
  { title := some ("Trial A duplicate".data), doi := some ("10.1/X".data),
    published_at := some ("2024".data) }

/-- C5 witness: a three-element list whose first and third elements carry
the same DOI up to case is deduplicated to its first two elements, one
shorter than the input, with the first occurrence's fields preserved. -/
theorem c5_deduplicate_stable_first_wins_witness :
    (List.Sublist (deduplicate [c5a, c5b, c5a2]) ([c5a, c5b, c5a2].map setFp)) ∧
    (effFingerprint c5a ∉ [ ].map effFingerprint ∧
      setFp c5a ∈ deduplicate ([] ++ c5a :: [c5b, c5a2])) ∧
    (([c5a, c5b, c5a2].map effFingerprint).dedup.length + 1 = [c5a, c5b, c5a2].length ∧
      (deduplicate [c5a, c5b, c5a2]).length + 1 = [c5a, c5b, c5a2].length) ∧
    deduplicate [c5a, c5b, c5a2] = [setFp c5a, setFp c5b] :=
  ⟨c5_deduplicate_stable_first_wins.1 [c5a, c5b, c5a2],
   ⟨by decide, c5_deduplicate_stable_first_wins.2.2.2.1 [] c5a [c5b, c5a2] (by decide)⟩,
   ⟨by decide, c5_deduplicate_stable_first_wins.2.2.2.2 [c5a, c5b, c5a2] (by decide)⟩,
   by decide⟩

def c6opts : RunOptions :=
  { mode_name := "m1".data, days_back := 30, incremental_cap_days := some 30,
    include_trials := false, include_journal_rss := false,
    include_fda_approvals := false }

def c6run : RunRow :=
  { id := 1, specialty := "lung".data, subcategory := "Immunotherapy".data,
    mode_name := some ("m1".data), sources_key := some (build_sources_key c6opts),
    resolved_days_back := some 30, force_full_refresh := false, started_at := 0,
    finished_at := some 100, status := "success".data, ingested_count := 10,
    deduped_count := 8, error_text := none }

def c6db : DB := { runs := [c6run], next_run_id := 2 }

/-- C6 witness: with a matching success run finished exactly two days
before `now` the resolved window is 2 (in {2,3}); with
`force_full_refresh` the full requested window of 30 days comes back. -/
theorem c6_resolve_window_witness :
    resolve_incremental_days_back c6db ("lung".data) ("Immunotherapy".data)
      { c6opts with force_full_refresh := true } 172900 = (30, none) ∧
    get_last_successful_run c6db ("lung".data) ("Immunotherapy".data)
      (some c6opts.mode_name) (some (build_sources_key c6opts)) = some c6run ∧
    resolve_incremental_days_back c6db ("lung".data) ("Immunotherapy".data)
      c6opts 172900 = (2, some c6run) ∧
    ((resolve_incremental_days_back c6db ("lung".data) ("Immunotherapy".data)
        c6opts 172900).1 = 2 ∨
      (resolve_incremental_days_back c6db ("lung".data) ("Immunotherapy".data)
        c6opts 172900).1 = 3) := by
  have hg : get_last_successful_run c6db ("lung".data) ("Immunotherapy".data)
      (some c6opts.mode_name) (some (build_sources_key c6opts)) = some c6run := by
    decide
  have h1 := (c6_resolve_window c6db ("lung".data) ("Immunotherapy".data)
    { c6opts with force_full_refresh := true } 172900).1 rfl
  have h2 := ((c6_resolve_window c6db ("lung".data) ("Immunotherapy".data)
    c6opts 172900).2 rfl).2 c6run hg
  have h3 : min (max 1 (ceilDivInt (172900 - c6run.finished_at.getD c6run.started_at)
      86400)) (capDays c6opts) = 2 := by decide
  refine ⟨h1, hg, ?_, h2.2 (by decide) (by decide) (by decide)⟩
  rw [h2.1, h3]

theorem replaceOnConflict_map_fp (item : ItemDict) (fp : Str) (now : Int)
    (l : List ItemRow) :
    (replaceOnConflict item fp now l).map (fun r => r.fingerprint) =
      l.map fun r => r.fingerprint := by
  induction l with
  | nil => rfl
  | cons r t ih =>
    simp only [replaceOnConflict]
    split
    · rename_i h
      simp only [List.map_cons, updateItemRow, newItemRow]
      rw [h]
    · simp only [List.map_cons, ih]

theorem replaceOnConflict_map_id (item : ItemDict) (fp : Str) (now : Int)
    (l : List ItemRow) :
    (replaceOnConflict item fp now l).map (fun r => r.id) = l.map fun r => r.id := by
  induction l with
  | nil => rfl
  | cons r t ih =>
    simp only [replaceOnConflict]
    split
    · simp only [List.map_cons, updateItemRow, newItemRow]
    · simp only [List.map_cons, ih]

theorem replaceOnConflict_mem (item : ItemDict) (fp : Str) (now : Int) :
    ∀ l : List ItemRow, (l.map fun r => r.fingerprint).Nodup →
      ∀ r2 ∈ replaceOnConflict item fp now l, r2.fingerprint = fp →
      ∃ r1 ∈ l, r1.fingerprint = fp ∧ r2 = updateItemRow r1 item fp now ∧
        ∀ r0 ∈ l, r0.fingerprint = fp → r0 = r1 := by
  intro l
  induction l with
  | nil => intro _ r2 h; cases h
  | cons r t ih =>
    intro hnd r2 hmem hfp
    simp only [List.map_cons, List.nodup_cons] at hnd
    simp only [replaceOnConflict] at hmem
    split at hmem
    · rename_i h
      rcases List.mem_cons.mp hmem with rfl | hmem2
      · refine ⟨r, List.mem_cons_self r t, h, rfl, fun r0 hr0 hfp0 => ?_⟩
        rcases List.mem_cons.mp hr0 with rfl | hr0t
        · rfl
        · exact absurd (h ▸ hfp0 ▸ List.mem_map_of_mem (fun r => r.fingerprint) hr0t)
            hnd.1
      · exact absurd (h ▸ hfp ▸ List.mem_map_of_mem (fun r => r.fingerprint) hmem2)
          hnd.1
    · rename_i h
      rcases List.mem_cons.mp hmem with rfl | hmem2
      · exact absurd hfp h
      · obtain ⟨r1, hr1, hfp1, he, huniq⟩ := ih hnd.2 r2 hmem2 hfp
        refine ⟨r1, List.mem_cons_of_mem r hr1, hfp1, he, fun r0 hr0 hfp0 => ?_⟩
        rcases List.mem_cons.mp hr0 with rfl | hr0t
        · exact absurd hfp0 h
        · exact huniq r0 hr0t hfp0

def c3rec1 : ItemDict :=
  { source := some ("pubmed".data), title := some ("Neoadjuvant Therapy Trial".data),
    doi := some ("10.1/x".data) }

def c3rec2 : ItemDict :=
  { source := some ("europepmc".data),
    title := some ("NEOADJUVANT THERAPY TRIAL".data), doi := some ("10.1/x".data) }

/-- C3: the item store never holds two rows with the same fingerprint —
`upsert_item` preserves fingerprint uniqueness; when the fingerprint
already exists the row set keeps its ids (no second row is created) and
every row carrying that fingerprint is exactly the old row updated
in place with the item's mutable fields (`updateItemRow`: id and
`created_at` kept, everything else last-write-wins); and ingesting two
records with the same DOI differing only in title casing into an empty
store yields exactly one persisted row with that fingerprint. -/
theorem c3_upsert_fingerprint_unique :
    (∀ (db : DB) (item : ItemDict) (now : Int) (db2 : DB),
      upsert_item db item now = some db2 →
      (db.items.map fun r => r.fingerprint).Nodup →
      (db2.items.map fun r => r.fingerprint).Nodup) ∧
    (∀ (db : DB) (item : ItemDict) (now : Int) (fp : Str) (db2 : DB),
      item.fingerprint = some fp →
      upsert_item db item now = some db2 →
      (∃ r ∈ db.items, r.fingerprint = fp) →
      db2.items.map (fun r => r.id) = db.items.map fun r => r.id) ∧
    (∀ (db : DB) (item : ItemDict) (now : Int) (fp : Str) (db2 : DB),
      item.fingerprint = some fp →
      upsert_item db item now = some db2 →
      (db.items.map fun r => r.fingerprint).Nodup →
      (∃ r ∈ db.items, r.fingerprint = fp) →
      ∀ r2 ∈ db2.items, r2.fingerprint = fp →
        ∃ r1 ∈ db.items, r1.fingerprint = fp ∧ r2 = updateItemRow r1 item fp now) ∧
    (((upsert_item {} (setFp c3rec1) 5).bind fun d1 =>
        upsert_item d1 (setFp c3rec2) 6).map
          (fun d => d.items.map fun r => r.fingerprint) =
      some ["doi:10.1/x".data]) := by
  have hany_true : ∀ (db : DB) (fp : Str), (∃ r ∈ db.items, r.fingerprint = fp) →
      (db.items.any fun r => r.fingerprint = fp) = true := by
    intro db fp h
    simp only [List.any_eq_true, decide_eq_true_eq]
    exact h
  refine ⟨fun db item now db2 hup hnd => ?_, fun db item now fp db2 hfp hup hex => ?_,
    fun db item now fp db2 hfp hup hnd hex r2 hr2 hfp2 => ?_, by decide⟩
  · rcases hfpc : item.fingerprint with _ | fp
    · rw [upsert_item, hfpc] at hup; cases hup
    · simp only [upsert_item, hfpc] at hup
      split at hup
      · simp only [Option.some.injEq] at hup
        subst hup
        rwa [replaceOnConflict_map_fp]
      · rename_i hany
        simp only [List.any_eq_true, decide_eq_true_eq] at hany
        push_neg at hany
        simp only [Option.some.injEq] at hup
        subst hup
        simp only [List.map_append, List.map_cons, List.map_nil]
        rw [List.nodup_append]
        refine ⟨hnd, List.nodup_singleton _, fun a ha hb => ?_⟩
        simp only [List.mem_singleton] at hb
        subst hb
        obtain ⟨r, hr, hfpr⟩ := List.mem_map.mp ha
        exact hany r hr hfpr
  · simp only [upsert_item, hfp, hany_true db fp hex, if_true,
      Option.some.injEq] at hup
    subst hup
    exact replaceOnConflict_map_id item fp now db.items
  · simp only [upsert_item, hfp, hany_true db fp hex, if_true,
      Option.some.injEq] at hup
    subst hup
    obtain ⟨r1, hr1, hfp1, he, _⟩ := replaceOnConflict_mem item fp now db.items hnd r2 hr2 hfp2
    exact ⟨r1, hr1, hfp1, he⟩

def c3db1 : DB :=
  { items := [newItemRow 1 (setFp c3rec1) ("doi:10.1/x".data) 5], next_item_id := 2 }

/-- C3 witness: uniqueness is preserved on the first insert, and the
second record with the case-variant title updates the single existing row
in place. -/
theorem c3_upsert_fingerprint_unique_witness :
    (upsert_item {} (setFp c3rec1) 5 = some c3db1 ∧
      (c3db1.items.map fun r => r.fingerprint).Nodup) ∧
    (∀ db2 : DB, upsert_item c3db1 (setFp c3rec2) 6 = some db2 →
      db2.items.map (fun r => r.id) = c3db1.items.map fun r => r.id) ∧
    (∀ r2 ∈ (replaceOnConflict (setFp c3rec2) ("doi:10.1/x".data) 6 c3db1.items),
      r2.fingerprint = "doi:10.1/x".data →
      ∃ r1 ∈ c3db1.items, r1.fingerprint = "doi:10.1/x".data ∧
        r2 = updateItemRow r1 (setFp c3rec2) ("doi:10.1/x".data) 6) := by
  refine ⟨⟨by decide, ?_⟩, fun db2 hup => ?_, fun r2 hr2 hfp2 => ?_⟩
  · exact c3_upsert_fingerprint_unique.1 {} (setFp c3rec1) 5 c3db1 (by decide) (by decide)
  · exact c3_upsert_fingerprint_unique.2.1 c3db1 (setFp c3rec2) 6 ("doi:10.1/x".data)
      db2 (by decide) hup (by decide)
  · have h := c3_upsert_fingerprint_unique.2.2.1 c3db1 (setFp c3rec2) 6
      ("doi:10.1/x".data)
      { c3db1 with items := replaceOnConflict (setFp c3rec2) ("doi:10.1/x".data) 6 c3db1.items }
      (by decide) (by decide) (by decide) (by decide) r2 hr2 hfp2
    exact h

theorem includeFold_score (blob : Str) (pts : Int) (terms : List Str) :
    (includeFold blob pts terms).1 =
      pts * ((terms.filter fun t => pyIn (pyLower t) blob).length : Int) := by
  have go : ∀ (ts : List Str) (acc : Int × List Str),
      (ts.foldl (fun acc term =>
        if pyIn (pyLower term) blob then
          (acc.1 + pts,
           acc.2 ++ ["+".data ++ intStr pts ++ " include term: ".data ++ term])
        else acc) acc).1 =
      acc.1 + pts * ((ts.filter fun t => pyIn (pyLower t) blob).length : Int) := by
    intro ts
    induction ts with
    | nil => intro acc; simp
    | cons t rest ih =>
      intro acc
      by_cases h : pyIn (pyLower t) blob
      · simp only [List.foldl_cons, h, if_true, ih, List.filter_cons, List.length_cons]
        push_cast
        ring
      · simp only [List.foldl_cons, h, if_false, ih, List.filter_cons]
        simp [h]
  unfold includeFold
  rw [go terms (0, [])]
  simp

theorem excludeFold_score (blob : Str) (pts : Int) (terms : List Str) :
    (excludeFold blob pts terms).1 =
      pts * ((terms.filter fun t => pyIn (pyLower t) blob).length : Int) := by
  have go : ∀ (ts : List Str) (acc : Int × List Str),
      (ts.foldl (fun acc term =>
        if pyIn (pyLower term) blob then
          (acc.1 + pts, acc.2 ++ [intStr pts ++ " exclude term: ".data ++ term])
        else acc) acc).1 =
      acc.1 + pts * ((ts.filter fun t => pyIn (pyLower t) blob).length : Int) := by
    intro ts
    induction ts with
    | nil => intro acc; simp
    | cons t rest ih =>
      intro acc
      by_cases h : pyIn (pyLower t) blob
      · simp only [List.foldl_cons, h, if_true, ih, List.filter_cons, List.length_cons]
        push_cast
        ring
      · simp only [List.foldl_cons, h, if_false, ih, List.filter_cons]
        simp [h]
  unfold excludeFold
  rw [go terms (0, [])]
  simp

/-- C9 (amended): the include/exclude contribution to the score is the
term weight times the number of list entries whose lowercased term occurs
in the blob — once per list entry, regardless of how often the term is
mentioned in the text, but duplicate list entries each add the weight
again (the claim's "once per distinct term regardless of duplicate
entries" fails, see the counterexample). -/
theorem c9_include_exclude_per_entry (log1p : Int → ℚ) (item : ItemDict)
    (rules : Rules) (ov : Option (List (Str × Option ℚ))) :
    (score_item log1p item rules ov).1 =
      (score_item log1p item
        { rules with include_terms := [], exclude_terms := [] } ov).1 +
      pyInt (resolvedWeights ov).include_term *
        ((rules.include_terms.filter fun t =>
          pyIn (pyLower t) (scoreBlob item)).length : Int) +
      pyInt (resolvedWeights ov).exclude_term *
        ((rules.exclude_terms.filter fun t =>
          pyIn (pyLower t) (scoreBlob item)).length : Int) := by
  simp only [score_item]
  rw [includeFold_score, includeFold_score, excludeFold_score, excludeFold_score]
  simp only [List.filter_nil, List.length_nil, Nat.cast_zero, mul_zero]
  ring

def zeroLog : Int → ℚ := fun _ => 0

def c9item : ItemDict := { title := some ("tumor growth".data) }

def c9rulesDup : Rules := { include_terms := ["tumor".data, "tumor".data] }

def c9rulesSingle : Rules := { include_terms := ["tumor".data] }

/-- C9 counterexample: two rule sets with the same set of distinct include
terms ({"tumor"}, present once in the text) give different scores, 2
versus 1 — the duplicated list entry adds the include-term weight a
second time, so "once per distinct term, regardless of duplicate entries
in the list" is false as stated. -/
theorem c9_counterexample :
    c9rulesDup.include_terms.dedup = c9rulesSingle.include_terms.dedup ∧
    (score_item zeroLog c9item c9rulesDup none).1 = 2 ∧
    (score_item zeroLog c9item c9rulesSingle none).1 = 1 := by
  refine ⟨by decide, by decide, by decide⟩

theorem contribIf_fst (cond : Bool) (points : Int) (label : Str) :
    (contribIf cond points label).1 = if cond then points else 0 := by
  unfold contribIf; split <;> rfl

theorem contribBare_fst (cond : Bool) (points : Int) (label : Str) :
    (contribBare cond points label).1 = if cond then points else 0 := by
  unfold contribBare; split <;> rfl

/-- C8: under the default weights and rules, an item whose text carries a
phase-III phrase scores strictly higher than an otherwise-identical item
carrying a phase-II phrase instead — "identical in all other fields"
rendered as: same venue and citations, and every other text rule
(randomized, meta-analysis, survival endpoints, sample size, penalty
term lists) firing identically on the two texts. -/
theorem c8_phase_iii_beats_phase_ii (log1p : Int → ℚ) (i3 i2 : ItemDict)
    (h3 : hasAny (scoreBlob i3) ["phase iii".data, "phase 3".data] = true)
    (h23 : hasAny (scoreBlob i2) ["phase iii".data, "phase 3".data] = false)
    (h2 : hasAny (scoreBlob i2) ["phase ii".data, "phase 2".data] = true)
    (hrand : hasAny (scoreBlob i3) ["randomized".data, "rct".data] =
      hasAny (scoreBlob i2) ["randomized".data, "rct".data])
    (hmeta : hasAny (scoreBlob i3) ["meta-analysis".data, "systematic review".data] =
      hasAny (scoreBlob i2) ["meta-analysis".data, "systematic review".data])
    (hos : hasAny (scoreBlob i3) ["overall survival".data, " os ".data] =
      hasAny (scoreBlob i2) ["overall survival".data, " os ".data])
    (hpfs : hasAny (scoreBlob i3) ["progression-free survival".data, " pfs ".data] =
      hasAny (scoreBlob i2) ["progression-free survival".data, " pfs ".data])
    (hss : sample_size_boost (scoreBlob i3) = sample_size_boost (scoreBlob i2))
    (hvenue : i3.venue = i2.venue)
    (hcit : i3.citations = i2.citations)
    (hpre : hasAny (scoreBlob i3)
        (["mouse".data, "murine".data, "cell line".data, "in vitro".data].map pyLower) =
      hasAny (scoreBlob i2)
        (["mouse".data, "murine".data, "cell line".data, "in vitro".data].map pyLower))
    (hcase : hasAny (scoreBlob i3) (["case report".data].map pyLower) =
      hasAny (scoreBlob i2) (["case report".data].map pyLower))
    (hglob : hasAny (scoreBlob i3) (_default_rules.global_penalty_terms.map pyLower) =
      hasAny (scoreBlob i2) (_default_rules.global_penalty_terms.map pyLower)) :
    (score_item log1p i2 _default_rules none).1 <
      (score_item log1p i3 _default_rules none).1 := by
  have e1 : pyInt (resolvedWeights none).phase_iii = 6 := by decide
  have e4 : pyInt (resolvedWeights none).phase_ii = 3 := by decide
  simp only [score_item, contribIf_fst, contribBare_fst]
  rw [hvenue, hcit]
  simp only [h3, h23, h2, hrand, hmeta, hos, hpfs, hss, hpre, hcase, hglob, e1, e4,
    if_true, if_false, Bool.false_eq_true]
  simp only [_default_rules, includeFold, excludeFold, queryRelevanceBoost,
    List.foldl_nil]
  by_cases hc : hasAny (scoreBlob i3) ["phase ii".data, "phase 2".data] <;>
    simp only [hc, if_true, if_false, Bool.false_eq_true] <;> omega

def c8i3 : ItemDict :=
  { title := some ("A phase iii trial".data),
    abstract_or_text := some ("overall survival improved".data),
    venue := some ("NEJM".data), citations := some 0 }

def c8i2 : ItemDict :=
  { title := some ("A phase ii trial".data),
    abstract_or_text := some ("overall survival improved".data),
    venue := some ("NEJM".data), citations := some 0 }

/-- C8 witness: a concrete phase-III/phase-II pair identical in every
other field. -/
theorem c8_phase_iii_beats_phase_ii_witness :
    hasAny (scoreBlob c8i3) ["phase iii".data, "phase 3".data] = true ∧
    hasAny (scoreBlob c8i2) ["phase iii".data, "phase 3".data] = false ∧
    hasAny (scoreBlob c8i2) ["phase ii".data, "phase 2".data] = true ∧
    c8i3.venue = c8i2.venue ∧ c8i3.citations = c8i2.citations ∧
    (score_item zeroLog c8i2 _default_rules none).1 <
      (score_item zeroLog c8i3 _default_rules none).1 :=
  ⟨by decide, by decide, by decide, by decide, by decide,
   c8_phase_iii_beats_phase_ii zeroLog c8i3 c8i2 (by decide) (by decide) (by decide)
     (by decide) (by decide) (by decide) (by decide) (by decide) (by decide)
     (by decide) (by decide) (by decide) (by decide)⟩

/-- The list a full (non-timed-out) fan-out ingests: each enabled
connector contributes its records tagged with the scope, a failed
connector contributes the empty list. -/
def ingestList (env : ConnEnv) (sp sc pq tq : Str) (o : RunOptions) : List ItemDict :=
  (if o.include_papers then
    tagScope sp sc (okList (env.pubmed pq o.days_back)) ++
    tagScope sp sc (okList (env.epmc_papers pq o.days_back)) ++
    (if o.include_journal_rss then tagScope sp sc (okList (env.rss pq)) else [])
  else []) ++
  ((if o.include_preprints then
    tagScope sp sc (okList (env.preprint_search pq o.days_back)) ++
    tagScope sp sc (okList (env.epmc_preprints pq o.days_back))
  else []) ++
  ((if o.include_trials then tagScope sp sc (okList (env.trials tq)) else []) ++
   (if o.include_fda_approvals then tagScope sp sc (okList (env.fda tq o.days_back)) else [])))

theorem tickE_ok (o : RunOptions) (env : ConnEnv)
    (hno : ∀ k, checkTimeout o env k = false) (k : Nat) :
    tickE o env k = .ok (k + 1) := by
  simp [tickE, hno]

theorem papersBlock_ok (env : ConnEnv) (sp sc pq : Str) (o : RunOptions)
    (hno : ∀ k, checkTimeout o env k = false) (st : List ItemDict × Nat) :
    ∃ kk, papersBlock env sp sc pq o st =
      .ok (st.1 ++ (if o.include_papers then
        tagScope sp sc (okList (env.pubmed pq o.days_back)) ++
        tagScope sp sc (okList (env.epmc_papers pq o.days_back)) ++
        (if o.include_journal_rss then tagScope sp sc (okList (env.rss pq)) else [])
      else []), kk) := by
  by_cases hp : o.include_papers
  · by_cases hr : o.include_journal_rss
    · exact ⟨st.2 + 1 + 1 + 1,
        by simp [papersBlock, tickE_ok o env hno, hp, hr, List.append_assoc]⟩
    · exact ⟨st.2 + 1 + 1,
        by simp [papersBlock, tickE_ok o env hno, hp, hr, List.append_assoc]⟩
  · exact ⟨st.2, by simp [papersBlock, hp]⟩

theorem preprintsBlock_ok (env : ConnEnv) (sp sc pq : Str) (o : RunOptions)
    (hno : ∀ k, checkTimeout o env k = false) (st : List ItemDict × Nat) :
    ∃ kk, preprintsBlock env sp sc pq o st =
      .ok (st.1 ++ (if o.include_preprints then
        tagScope sp sc (okList (env.preprint_search pq o.days_back)) ++
        tagScope sp sc (okList (env.epmc_preprints pq o.days_back))
      else []), kk) := by
  by_cases hp : o.include_preprints
  · exact ⟨st.2 + 1 + 1,
      by simp [preprintsBlock, tickE_ok o env hno, hp, List.append_assoc]⟩
  · exact ⟨st.2, by simp [preprintsBlock, hp]⟩

theorem trialsBlock_ok (env : ConnEnv) (sp sc tq : Str) (o : RunOptions)
    (hno : ∀ k, checkTimeout o env k = false) (st : List ItemDict × Nat) :
    ∃ kk, trialsBlock env sp sc tq o st =
      .ok (st.1 ++ (if o.include_trials then
        tagScope sp sc (okList (env.trials tq)) else []), kk) := by
  by_cases hp : o.include_trials
  · exact ⟨st.2 + 1, by simp [trialsBlock, tickE_ok o env hno, hp]⟩
  · exact ⟨st.2, by simp [trialsBlock, hp]⟩

theorem fdaBlock_ok (env : ConnEnv) (sp sc tq : Str) (o : RunOptions)
    (hno : ∀ k, checkTimeout o env k = false) (st : List ItemDict × Nat) :
    ∃ kk, fdaBlock env sp sc tq o st =
      .ok (st.1 ++ (if o.include_fda_approvals then
        tagScope sp sc (okList (env.fda tq o.days_back)) else []), kk) := by
  by_cases hp : o.include_fda_approvals
  · exact ⟨st.2 + 1, by simp [fdaBlock, tickE_ok o env hno, hp]⟩
  · exact ⟨st.2, by simp [fdaBlock, hp]⟩

theorem ingest_ok (env : ConnEnv) (sp sc pq tq : Str) (o : RunOptions)
    (hno : ∀ k, checkTimeout o env k = false) (k0 : Nat) :
    ∃ kk, _ingest_for_query env sp sc pq tq o k0 =
      .ok (ingestList env sp sc pq tq o, kk) := by
  obtain ⟨k1, h1⟩ := papersBlock_ok env sp sc pq o hno ([], k0)
  obtain ⟨k2, h2⟩ := preprintsBlock_ok env sp sc pq o hno
    ((if o.include_papers then
        tagScope sp sc (okList (env.pubmed pq o.days_back)) ++
        tagScope sp sc (okList (env.epmc_papers pq o.days_back)) ++
        (if o.include_journal_rss then tagScope sp sc (okList (env.rss pq)) else [])
      else []), k1)
  dsimp only at h2
  obtain ⟨k3, h3⟩ := trialsBlock_ok env sp sc tq o hno (_, k2)
  dsimp only at h3
  obtain ⟨k4, h4⟩ := fdaBlock_ok env sp sc tq o hno (_, k3)
  dsimp only at h4
  refine ⟨k4, ?_⟩
  simp only [List.nil_append] at h1
  simp only [_ingest_for_query, bind, Except.bind]
  rw [h1]
  dsimp only
  rw [h2]
  dsimp only
  rw [h3]
  dsimp only
  rw [h4]
  simp [ingestList, List.append_assoc]

theorem finalizeLoop_counts (env : ConnEnv) (rules : Rules) (o : RunOptions)
    (hno : ∀ k, checkTimeout o env k = false) :
    ∀ (l : List ItemDict) (db : DB) (p k : Nat),
      (finalizeLoop env rules o l db p k).2 = (p + l.length, false) := by
  intro l
  induction l with
  | nil => intro db p k; simp [finalizeLoop]
  | cons it rest ih =>
    intro db p k
    simp only [finalizeLoop, hno, Bool.false_eq_true, if_false]
    rw [ih]
    simp only [List.length_cons, Prod.mk.injEq]
    refine ⟨by omega, trivial⟩

/-- C7: connector failures are isolated — for every environment (any
subset of connectors raising, modelled by `okList` turning an error into
the empty contribution) and any run that never exceeds its budget, the
run finishes with status `success`, and `ingested_count` is the length of
`ingestList`, in which every failing connector contributes zero records
and the enabled healthy connectors contribute all of theirs. -/
theorem c7_connector_failure_isolated (env : ConnEnv) (db : DB) (sp sc : Str)
    (o : RunOptions) (rules : Rules)
    (hpack : env.get_pack sp sc = .ok rules)
    (hno : ∀ k, checkTimeout o env k = false) :
    (run_pipeline env db sp sc o).1 =
      .ok
        { run_id := (db.next_run_id : Int)
          status := "success".data
          ingested_count :=
            ((ingestList env sp sc rules.pubmed_query rules.trials_query
              { o with days_back :=
                (resolve_incremental_days_back db sp sc o env.now).1 }).length : Int)
          deduped_count :=
            ((deduplicate (_apply_filters
              (ingestList env sp sc rules.pubmed_query rules.trials_query
                { o with days_back :=
                  (resolve_incremental_days_back db sp sc o env.now).1 })
              { o with days_back :=
                (resolve_incremental_days_back db sp sc o env.now).1 })).length : Int)
          timed_out := false } := by
  have hno2 : ∀ k, checkTimeout
      { o with days_back := (resolve_incremental_days_back db sp sc o env.now).1 }
      env k = false := hno
  obtain ⟨kk, hing⟩ := ingest_ok env sp sc rules.pubmed_query rules.trials_query
    { o with days_back := (resolve_incremental_days_back db sp sc o env.now).1 }
    hno2 0
  simp only [run_pipeline, hpack]
  rw [hing]
  dsimp only [_finalize_items, create_run]
  rw [finalizeLoop_counts env rules _ hno2]
  simp

def c7rec : ItemDict :=
  { source := some ("pubmed".data), title := some ("A trial".data),
    doi := some ("10.9/z".data) }

def c7env : ConnEnv :=
  { idleEnv with pubmed := fun _ _ => .ok [c7rec], trials := fun _ => .error () }

def c7opts : RunOptions := { max_run_seconds := 0 }

/-- C7 witness: the trials connector raises on its call while pubmed
returns one record; the run still reports `success` with the counts of
the healthy connectors. -/
theorem c7_connector_failure_isolated_witness :
    c7env.get_pack ("lung".data) ("Immunotherapy".data) = .ok {} ∧
    (∀ k, checkTimeout c7opts c7env k = false) ∧
    c7env.trials [] = .error () ∧
    (run_pipeline c7env {} ("lung".data) ("Immunotherapy".data) c7opts).1 =
      .ok
        { run_id := (({} : DB).next_run_id : Int)
          status := "success".data
          ingested_count :=
            ((ingestList c7env ("lung".data) ("Immunotherapy".data)
              ({} : Rules).pubmed_query ({} : Rules).trials_query
              { c7opts with days_back :=
                (resolve_incremental_days_back {} ("lung".data) ("Immunotherapy".data)
                  c7opts c7env.now).1 }).length : Int)
          deduped_count :=
            ((deduplicate (_apply_filters
              (ingestList c7env ("lung".data) ("Immunotherapy".data)
                ({} : Rules).pubmed_query ({} : Rules).trials_query
                { c7opts with days_back :=
                  (resolve_incremental_days_back {} ("lung".data) ("Immunotherapy".data)
                    c7opts c7env.now).1 })
              { c7opts with days_back :=
                (resolve_incremental_days_back {} ("lung".data) ("Immunotherapy".data)
                  c7opts c7env.now).1 })).length : Int)
          timed_out := false } :=
  ⟨rfl, fun _ => rfl, rfl,
   c7_connector_failure_isolated c7env {} ("lung".data) ("Immunotherapy".data)
     c7opts {} rfl (fun _ => rfl)⟩

def c1rec : ItemDict :=
  { source := some ("pubmed".data), title := some ("Trial A".data),
    doi := some ("10.1/x".data) }

def c1env : ConnEnv :=
  { idleEnv with pubmed := fun _ _ => .ok [c1rec],
                 clock := fun k => if k = 0 then 0 else 100 }

/-- C1 evidence: the budget is exceeded at the second `check_timeout`
call, i.e. during connector fan-out, after pubmed has already fetched one
record. The run is finalized as `timeout`, but the fetched record is
discarded: nothing is deduplicated, scored or persisted, and the
RunRecord carries counts (0, 0) — the claim's "already fetched records
are still deduplicated, scored, and persisted, with counts reflecting
what was gathered" does not hold on the code. -/
theorem c1_fanout_timeout_discards_partial :
    okList (c1env.pubmed [] 14) = [c1rec] ∧
    checkTimeout {} c1env 1 = true ∧
    (run_pipeline c1env {} ("lung".data) ("Immunotherapy".data) {}).1 =
      .ok { run_id := 1, status := "timeout".data, ingested_count := 0,
            deduped_count := 0, timed_out := true } ∧
    (run_pipeline c1env {} ("lung".data) ("Immunotherapy".data) {}).2.items = [] ∧
    (run_pipeline c1env {} ("lung".data) ("Immunotherapy".data) {}).2.runs.map
      (fun r => (r.status, r.ingested_count, r.deduped_count)) =
      [("timeout".data, 0, 0)] :=
  ⟨rfl, rfl, rfl, rfl, rfl⟩

def c2opts : RunOptions := {}

def c2prior : RunRow :=
  { id := 1, specialty := "search".data, subcategory := _query_key ("eye".data),
    mode_name := some ("All".data), sources_key := some (build_sources_key c2opts),
    resolved_days_back := some 14, force_full_refresh := false, started_at := 0,
    finished_at := some 0, status := "success".data, ingested_count := 3,
    deduped_count := 3, error_text := none }

def c2db : DB := { runs := [c2prior], next_run_id := 2 }

def c2env : ConnEnv := { idleEnv with now := 172800 }

/-- C2 evidence: re-running the same free-text query two days after a
prior successful run of that synthetic scope, the entry point's ledger
lookup finds the prior run and the new RunRecord is created with
`resolved_days_back = 2` although the requested window is 14 days — the
fetch window is an incremental window derived from the ledger, refuting
the claim's "always the full requested window, never incremental" (the
scope's cached items were nevertheless cleared before ingesting). -/
theorem c2_query_window_is_incremental :
    c2opts.days_back = 14 ∧
    get_last_successful_run c2db ("search".data) (_query_key ("eye".data))
      (some c2opts.mode_name) (some (build_sources_key c2opts)) = some c2prior ∧
    ((run_pipeline_query c2env c2db ("eye".data) c2opts).2.runs.filter
      (fun r => r.id = 2)).map (fun r => r.resolved_days_back) = [some 2] :=
  ⟨rfl, by decide, by decide⟩
